import Mathlib

/-!
Verification development for a VPC-provisioning command-line program
(`argpase.py`).  The program has two parts:

* `validate_cidr`, which checks a CIDR string by delegating to Python's
  `ipaddress.IPv4Network` constructor (strict mode) and returns the input
  string unchanged on success;
* `main`, which parses five required options (three of them validated as
  CIDRs), constructs a cloud client, and then runs six provisioning steps
  in order inside a try/except block, printing a success line per step and
  a single error line on the first failure.

The first half of this file embeds the string-parsing algorithm of
CPython's `ipaddress.IPv4Network` (the exact algorithm `validate_cidr`
relies on): octet parsing, dotted-quad parsing, the three accepted
netmask forms, and the strict host-bits check.  The second half embeds
the provisioning workflow as a deterministic interaction with an abstract
cloud client, recording the list of remote calls and printed lines.
-/

/-! ## Embedding of `ipaddress.IPv4Network` string parsing -/

/-- ASCII-digit test; this is what `str.isascii() and str.isdigit()`
amounts to for the characters that may appear in the input. -/
def isDigitCh (c : Char) : Bool := 48 ≤ c.toNat && c.toNat ≤ 57

/-- Decimal value of a digit string (accumulator style, like `int(s)`). -/
def digitsVal (l : List Char) : Nat := l.foldl (fun a c => a * 10 + (c.toNat - 48)) 0

/-- Split a character list at every occurrence of `sep`, keeping empty
segments, exactly like Python's `str.split(sep)`. -/
def splitOnChar (sep : Char) : List Char → List (List Char)
  | [] => [[]]
  | c :: cs =>
    match splitOnChar sep cs with
    | [] => [[]]
    | seg :: segs => if c = sep then [] :: seg :: segs else (c :: seg) :: segs

/-- Embedding of `ipaddress._parse_octet`: an octet must be a nonempty
ASCII-digit string of at most 3 characters, without leading zeros
(except `"0"` itself), with value at most 255. -/
def parse_octet (l : List Char) : Option Nat :=
  if l.isEmpty then none
  else if !(l.all isDigitCh) then none
  else if l.length > 3 then none
  else if l ≠ ['0'] ∧ l.head? = some '0' then none
  else if digitsVal l > 255 then none
  else some (digitsVal l)

/-- Embedding of `ipaddress._ip_int_from_string`: split on `'.'`, require
exactly four octets, and combine them big-endian. -/
def ip_int_from_string (l : List Char) : Option Nat :=
  if l.isEmpty then none
  else
    match splitOnChar '.' l with
    | [o1, o2, o3, o4] =>
      match parse_octet o1, parse_octet o2, parse_octet o3, parse_octet o4 with
      | some a, some b, some c, some d => some (((a * 256 + b) * 256 + c) * 256 + d)
      | _, _, _, _ => none
    | _ => none

/-- Embedding of `ipaddress._prefix_from_prefix_string`: digits only,
value at most 32 (leading zeros are permitted here, since the check is
`isdigit` followed by `int`). -/
def pfxFromPfxString (l : List Char) : Option Nat :=
  if l.isEmpty then none
  else if !(l.all isDigitCh) then none
  else if digitsVal l ≤ 32 then some (digitsVal l) else none

/-- Count the trailing zero bits of `n`, with fuel; with fuel 32 this is
`ipaddress._count_righthand_zero_bits(n, 32)` (which returns 32 for 0). -/
def countTZ : Nat → Nat → Nat
  | 0, _ => 0
  | fuel + 1, n => if n % 2 = 1 then 0 else 1 + countTZ fuel (n / 2)

/-- Embedding of `ipaddress._prefix_from_ip_int`: a 32-bit integer is a
valid netmask iff its bits are some ones followed by only zeros; the
source binds `trailing_zeroes` and `prefixlen` locally, inlined here. -/
def pfxFromIpInt (m : Nat) : Option Nat :=
  if m >>> countTZ 32 m = 2 ^ (32 - countTZ 32 m) - 1
  then some (32 - countTZ 32 m) else none

/-- Embedding of `ipaddress.IPv4Network._ip_int_from_prefix`: the netmask
integer for a given prefix length, written as in the source
(`ALL_ONES ^ (ALL_ONES >> prefixlen)`). -/
def ipIntFromPfx (p : Nat) : Nat := 0xFFFFFFFF ^^^ (0xFFFFFFFF >>> p)

/-- Embedding of `ipaddress.IPv4Network._make_netmask` on a string
argument: first try prefix-length form, then dotted netmask form, then
dotted hostmask form (the complement). -/
def make_netmask (m : List Char) : Option Nat :=
  match pfxFromPfxString m with
  | some p => some p
  | none =>
    match ip_int_from_string m with
    | none => none
    | some v =>
      match pfxFromIpInt v with
      | some p => some p
      | none => pfxFromIpInt (v ^^^ 0xFFFFFFFF)

/-- Embedding of `ipaddress.IPv4Network.__init__` on a string, with
`strict=True` (the default, used by `validate_cidr`): split on `'/'`
(at most one permitted), parse the address, determine the prefix length
(32 when absent), and reject when host bits are set below the netmask.
Returns the address integer and prefix length. -/
def ipv4NetworkStrict (l : List Char) : Option (Nat × Nat) :=
  match splitOnChar '/' l with
  | [addr] =>
    match ip_int_from_string addr with
    | none => none
    | some ip => if ip &&& ipIntFromPfx 32 = ip then some (ip, 32) else none
  | [addr, m] =>
    match ip_int_from_string addr with
    | none => none
    | some ip =>
      match make_netmask m with
      | none => none
      | some p => if ip &&& ipIntFromPfx p = ip then some (ip, p) else none
  | _ => none

/-- Embedding of `validate_cidr` (argpase.py lines 7-13): try
`IPv4Network(cidr)`; on `ValueError` raise `ArgumentTypeError` with the
message `"Invalid CIDR: " + cidr`, otherwise return the input unchanged. -/
def validate_cidr (s : String) : Except String String :=
  match ipv4NetworkStrict s.data with
  | some _ => .ok s
  | none => .error ("Invalid CIDR: " ++ s)

/-! ## Specification-side characterisation of the accepted strings

The definitions below state, in the spec's vocabulary of shapes and
arithmetic (rather than the library's bit tricks), which strings are
accepted.  They are compared with the embedded parser by the theorems
further down. -/

/-- An octet written canonically: nonempty ASCII digits, no leading zero
except for `"0"` itself, and value in [0,255]. -/
def canonOctet (l : List Char) : Bool :=
  !l.isEmpty && l.all isDigitCh && !(decide (l ≠ ['0'] ∧ l.head? = some '0'))
    && decide (digitsVal l ≤ 255)

/-- Value of a dotted quad `a.b.c.d` with canonically written octets in
[0,255]; `none` when the string is not of that shape. -/
def quadValSpec (l : List Char) : Option Nat :=
  match splitOnChar '.' l with
  | [o1, o2, o3, o4] =>
    if canonOctet o1 && canonOctet o2 && canonOctet o3 && canonOctet o4 then
      some (((digitsVal o1 * 256 + digitsVal o2) * 256 + digitsVal o3) * 256 + digitsVal o4)
    else none
  | _ => none

/-- A prefix-length field as the claim describes it: decimal digits with
value in [0,32]. -/
def pfxShapeOk (l : List Char) : Bool :=
  !l.isEmpty && l.all isDigitCh && decide (digitsVal l ≤ 32)

/-- The netmask integer with `p` leading one bits, written
arithmetically. -/
def maskOf (p : Nat) : Nat := 2 ^ 32 - 2 ^ (32 - p)

/-- The prefix length `p ≤ 32` such that `m` is the netmask integer with
`p` leading ones, if any. -/
def maskPfxOf (m : Nat) : Option Nat :=
  (List.range 33).find? fun p => m == maskOf p

/-- The prefix length `p ≤ 32` such that `m` is the hostmask integer with
`32 - p` trailing ones, if any. -/
def hostmaskPfxOf (m : Nat) : Option Nat :=
  (List.range 33).find? fun p => m == 2 ^ (32 - p) - 1

/-- Prefix length denoted by the part after the slash, in the spec's
vocabulary: either a decimal prefix length in [0,32], or a dotted quad
that is a netmask (checked first) or a hostmask. -/
def specNetmask (m : List Char) : Option Nat :=
  if pfxShapeOk m then some (digitsVal m)
  else
    match quadValSpec m with
    | none => none
    | some v =>
      match maskPfxOf v with
      | some p => some p
      | none => hostmaskPfxOf v

/-- The set of strings accepted by `validate_cidr`, described in the
spec's vocabulary: a canonical dotted quad, optionally followed by a
slash and a prefix field, where the address must have no host bits set
below the prefix. -/
def acceptsCidr (s : String) : Bool :=
  match splitOnChar '/' s.data with
  | [addr] => (quadValSpec addr).isSome
  | [addr, m] =>
    match quadValSpec addr with
    | none => false
    | some ip =>
      match specNetmask m with
      | none => false
      | some p => ip % 2 ^ (32 - p) == 0
  | _ => false

/-- The shape `a.b.c.d/n` named by the claims: a canonical dotted quad, a
slash, and a decimal prefix length in [0,32].  Returns the address value
and the prefix length. -/
def shapeParse (s : String) : Option (Nat × Nat) :=
  match splitOnChar '/' s.data with
  | [addr, m] =>
    match quadValSpec addr with
    | none => none
    | some ip => if pfxShapeOk m then some (ip, digitsVal m) else none
  | _ => none

/-- A string is of the claims' shape `a.b.c.d/n` iff `shapeParse`
succeeds. -/
def isShapeCidr (s : String) : Bool := (shapeParse s).isSome

/-! ## Octet and quad lemmas -/

theorem digitsVal_foldl (l : List Char) (a : Nat) :
    l.foldl (fun a c => a * 10 + (c.toNat - 48)) a = a * 10 ^ l.length + digitsVal l := by
  induction l generalizing a with
  | nil => simp [digitsVal]
  | cons c t ih =>
    simp only [digitsVal, List.foldl_cons, List.length_cons]
    rw [ih, ih]
    ring

theorem digitsVal_cons (c : Char) (t : List Char) :
    digitsVal (c :: t) = (c.toNat - 48) * 10 ^ t.length + digitsVal t := by
  rw [show digitsVal (c :: t)
        = t.foldl (fun a x => a * 10 + (x.toNat - 48)) (0 * 10 + (c.toNat - 48)) from rfl]
  rw [digitsVal_foldl]
  ring

theorem toNat_ne_48 (c : Char) (h : c ≠ '0') : c.toNat ≠ 48 := by
  intro hn
  apply h
  have hc := Char.ofNat_toNat c
  rw [hn] at hc
  rw [← hc]

theorem digitsVal_head_lower (c : Char) (t : List Char)
    (hd : isDigitCh c = true) (hne : c ≠ '0') :
    10 ^ t.length ≤ digitsVal (c :: t) := by
  have h48 : 48 ≤ c.toNat := by
    simp only [isDigitCh, Bool.and_eq_true, decide_eq_true_eq] at hd
    exact hd.1
  have hne48 := toNat_ne_48 c hne
  have h1 : 1 ≤ c.toNat - 48 := by omega
  calc 10 ^ t.length = 1 * 10 ^ t.length := (one_mul _).symm
    _ ≤ (c.toNat - 48) * 10 ^ t.length := Nat.mul_le_mul_right _ h1
    _ ≤ (c.toNat - 48) * 10 ^ t.length + digitsVal t := Nat.le_add_right _ _
    _ = digitsVal (c :: t) := (digitsVal_cons c t).symm

theorem parse_octet_eq (l : List Char) :
    parse_octet l = if canonOctet l then some (digitsVal l) else none := by
  unfold parse_octet canonOctet
  by_cases h1 : l.isEmpty
  · simp [h1]
  · by_cases h2 : l.all isDigitCh
    · by_cases h4 : l ≠ ['0'] ∧ l.head? = some '0'
      · by_cases h3 : l.length > 3 <;> simp [h1, h2, h3, h4]
      · by_cases h3 : l.length > 3
        · have hbig : ¬ digitsVal l ≤ 255 := by
            cases l with
            | nil => simp at h1
            | cons c t =>
              have hne : (c :: t) ≠ ['0'] := by
                intro he
                rw [he] at h3
                simp at h3
              have hc : c ≠ '0' := fun hc0 => h4 ⟨hne, by rw [hc0]; rfl⟩
              have hdc : isDigitCh c = true := by
                simp only [List.all_cons, Bool.and_eq_true] at h2
                exact h2.1
              have hlow := digitsVal_head_lower c t hdc hc
              have hlen : 3 ≤ t.length := by
                simp only [List.length_cons] at h3
                omega
              have hpow : (10:Nat) ^ 3 ≤ 10 ^ t.length :=
                Nat.pow_le_pow_right (by omega) hlen
              intro hle
              have : (1000:Nat) ≤ digitsVal (c :: t) :=
                le_trans (by norm_num) (le_trans hpow hlow)
              omega
          simp [h1, h2, h3, h4, hbig]
        · by_cases h5 : digitsVal l > 255
          · have h5' : ¬ digitsVal l ≤ 255 := by omega
            simp [h1, h2, h3, h4, h5, h5']
          · have h5' : digitsVal l ≤ 255 := by omega
            simp [h1, h2, h3, h4, h5, h5']
    · simp [h1, h2]

theorem canonOctet_le (l : List Char) (h : canonOctet l = true) : digitsVal l ≤ 255 := by
  simp only [canonOctet, Bool.and_eq_true, decide_eq_true_eq] at h
  exact h.2

theorem quad_eq (l : List Char) : ip_int_from_string l = quadValSpec l := by
  unfold ip_int_from_string quadValSpec
  by_cases h : l.isEmpty
  · have : l = [] := by cases l with
      | nil => rfl
      | cons c t => simp at h
    subst this
    rfl
  · simp only [h, Bool.false_eq_true, if_false]
    cases e : splitOnChar '.' l with
    | nil => rfl
    | cons o1 r1 =>
      cases r1 with
      | nil => rfl
      | cons o2 r2 =>
        cases r2 with
        | nil => rfl
        | cons o3 r3 =>
          cases r3 with
          | nil => rfl
          | cons o4 r4 =>
            cases r4 with
            | cons _ _ => rfl
            | nil =>
              simp only [parse_octet_eq]
              by_cases c1 : canonOctet o1 <;> by_cases c2 : canonOctet o2 <;>
                by_cases c3 : canonOctet o3 <;> by_cases c4 : canonOctet o4 <;>
                simp [c1, c2, c3, c4]

theorem quadValSpec_lt (l : List Char) (ip : Nat) (h : quadValSpec l = some ip) :
    ip < 2 ^ 32 := by
  unfold quadValSpec at h
  split at h
  next o1 o2 o3 o4 =>
    split at h
    next hc =>
      simp only [Bool.and_eq_true] at hc
      obtain ⟨⟨⟨hc1, hc2⟩, hc3⟩, hc4⟩ := hc
      have b1 := canonOctet_le _ hc1
      have b2 := canonOctet_le _ hc2
      have b3 := canonOctet_le _ hc3
      have b4 := canonOctet_le _ hc4
      injection h with h'
      have h32 : (2:Nat) ^ 32 = 4294967296 := by norm_num
      rw [h32, ← h']
      omega
    next => simp at h
  next => simp at h


/-! ## Netmask lemmas -/

theorem countTZ_le (fuel : Nat) : ∀ n, countTZ fuel n ≤ fuel := by
  induction fuel with
  | zero => intro n; simp [countTZ]
  | succ f ih =>
    intro n
    unfold countTZ
    by_cases h : n % 2 = 1
    · simp [h]
    · simp only [h, if_false]
      have := ih (n / 2)
      omega

theorem countTZ_zero (fuel : Nat) : countTZ fuel 0 = fuel := by
  induction fuel with
  | zero => rfl
  | succ f ih =>
    unfold countTZ
    simp [ih]
    omega

theorem countTZ_dvd (fuel : Nat) : ∀ n, 2 ^ countTZ fuel n ∣ n := by
  induction fuel with
  | zero => intro n; simp [countTZ]
  | succ f ih =>
    intro n
    unfold countTZ
    by_cases h : n % 2 = 1
    · simp [h]
    · simp only [h, if_false]
      have h2 : n = 2 * (n / 2) := by omega
      rw [pow_add, pow_one]
      conv_rhs => rw [h2]
      exact Nat.mul_dvd_mul (dvd_refl 2) (ih (n / 2))

theorem countTZ_odd_mul_pow : ∀ m f q, m < f → q % 2 = 1 →
    countTZ f (q * 2 ^ m) = m := by
  intro m
  induction m with
  | zero =>
    intro f q hf hq
    cases f with
    | zero => omega
    | succ f' =>
      unfold countTZ
      simp [hq]
  | succ m' ih =>
    intro f q hf hq
    cases f with
    | zero => omega
    | succ f' =>
      unfold countTZ
      have he : (q * 2 ^ (m' + 1)) % 2 = 0 := by
        have h : q * 2 ^ (m' + 1) = q * 2 ^ m' * 2 := by rw [pow_succ]; ring
        rw [h]
        exact Nat.mul_mod_left _ 2
      have hne : ¬ (q * 2 ^ (m' + 1)) % 2 = 1 := by omega
      simp only [hne, if_false]
      have hd : q * 2 ^ (m' + 1) / 2 = q * 2 ^ m' := by
        rw [show q * 2 ^ (m' + 1) = q * 2 ^ m' * 2 from by rw [pow_succ]; ring]
        exact Nat.mul_div_cancel _ (by omega)
      rw [hd, ih f' q (by omega) hq]
      omega

theorem maskOf_pow (p : Nat) (hp : p ≤ 32) : maskOf p = (2 ^ p - 1) * 2 ^ (32 - p) := by
  unfold maskOf
  have hsum : (2:Nat) ^ p * 2 ^ (32 - p) = 2 ^ 32 := by
    rw [← pow_add]
    congr 1
    omega
  rw [Nat.sub_mul, one_mul, hsum]

theorem pfxFromIpInt_eq_some (m p : Nat) (hm : m < 2 ^ 32) :
    pfxFromIpInt m = some p ↔ (p ≤ 32 ∧ m = maskOf p) := by
  constructor
  · intro h
    unfold pfxFromIpInt at h
    set tz := countTZ 32 m with htz
    have htzle : tz ≤ 32 := countTZ_le 32 m
    by_cases hc : m >>> tz = 2 ^ (32 - tz) - 1
    · rw [if_pos hc] at h
      injection h with h'
      subst h'
      refine ⟨by omega, ?_⟩
      obtain ⟨q, hq⟩ := countTZ_dvd 32 m
      rw [Nat.shiftRight_eq_div_pow] at hc
      rw [← htz] at hq
      have hqval : q = 2 ^ (32 - tz) - 1 := by
        rw [hq] at hc
        rwa [Nat.mul_div_cancel_left q (Nat.pos_pow_of_pos tz (by omega))] at hc
      rw [maskOf_pow (32 - tz) (by omega), hq, hqval]
      have h32 : 32 - (32 - tz) = tz := by omega
      rw [h32]
      ring
    · rw [if_neg hc] at h
      exact absurd h (by simp)
  · rintro ⟨hp, rfl⟩
    by_cases hp0 : p = 0
    · subst hp0
      have h0 : maskOf 0 = 0 := by unfold maskOf; omega
      rw [h0]
      unfold pfxFromIpInt
      rw [countTZ_zero]
      norm_num
    · have hmm : maskOf p = (2 ^ p - 1) * 2 ^ (32 - p) := maskOf_pow p hp
      have hodd : (2 ^ p - 1) % 2 = 1 := by
        obtain ⟨p', rfl⟩ : ∃ p', p = p' + 1 := ⟨p - 1, by omega⟩
        rw [pow_succ]
        have h1 : (1:Nat) ≤ 2 ^ p' := Nat.one_le_two_pow
        omega
      unfold pfxFromIpInt
      rw [hmm, countTZ_odd_mul_pow (32 - p) 32 _ (by omega) hodd]
      have h1 : 32 - (32 - p) = p := by omega
      rw [h1]
      rw [Nat.shiftRight_eq_div_pow,
        Nat.mul_div_cancel _ (Nat.pos_pow_of_pos (32 - p) (by omega))]
      simp

theorem pfxFromIpInt_eq_maskPfxOf (m : Nat) (hm : m < 2 ^ 32) :
    pfxFromIpInt m = maskPfxOf m := by
  cases e : maskPfxOf m with
  | some p =>
    have hp := List.find?_some e
    have hmem := List.mem_of_find?_eq_some e
    rw [List.mem_range] at hmem
    simp only [beq_iff_eq] at hp
    exact (pfxFromIpInt_eq_some m p hm).mpr ⟨by omega, hp⟩
  | none =>
    cases e2 : pfxFromIpInt m with
    | none => rfl
    | some p =>
      exfalso
      obtain ⟨hp32, hmask⟩ := (pfxFromIpInt_eq_some m p hm).mp e2
      have hnone := List.find?_eq_none.mp e p (List.mem_range.mpr (by omega))
      exact hnone (by simp [hmask])

theorem find?_congr_on (p q : Nat → Bool) (l : List Nat) (h : ∀ x ∈ l, p x = q x) :
    l.find? p = l.find? q := by
  induction l with
  | nil => rfl
  | cons a t ih =>
    have ha := h a (List.mem_cons_self a t)
    rw [List.find?_cons, List.find?_cons, ha]
    cases q a with
    | true => rfl
    | false => exact ih fun x hx => h x (List.mem_cons_of_mem a hx)

theorem mask_compl_eq : ∀ p < 33, maskOf p ^^^ 0xFFFFFFFF = 2 ^ (32 - p) - 1 := by decide

theorem beq_congr (x y z w : Nat) (h : x = y ↔ z = w) : (x == y) = (z == w) := by
  by_cases hx : x = y
  · simp [hx, h.mp hx]
  · have hz : ¬ z = w := fun hzw => hx (h.mpr hzw)
    simp [hx, hz]

theorem hostmask_equiv (m : Nat) (hm : m < 2 ^ 32) :
    pfxFromIpInt (m ^^^ 0xFFFFFFFF) = hostmaskPfxOf m := by
  have hlt : m ^^^ 0xFFFFFFFF < 2 ^ 32 := Nat.xor_lt_two_pow hm (by norm_num)
  rw [pfxFromIpInt_eq_maskPfxOf _ hlt]
  unfold maskPfxOf hostmaskPfxOf
  apply find?_congr_on
  intro p hp
  rw [List.mem_range] at hp
  have hcompl := mask_compl_eq p hp
  show ((m ^^^ 0xFFFFFFFF) == maskOf p) = (m == 2 ^ (32 - p) - 1)
  apply beq_congr
  constructor
  · intro h
    rw [← hcompl, ← h, Nat.xor_assoc, Nat.xor_self, Nat.xor_zero]
  · intro h
    rw [h, ← hcompl, Nat.xor_assoc, Nat.xor_self, Nat.xor_zero]

/-! ## Strict host-bits check -/

theorem shiftLeft_land_shiftLeft (a b k : Nat) :
    (a <<< k) &&& (b <<< k) = (a &&& b) <<< k := by
  apply Nat.eq_of_testBit_eq
  intro i
  simp only [Nat.testBit_and, Nat.testBit_shiftLeft]
  by_cases h : k ≤ i <;> simp [h, Bool.and_assoc, Bool.and_comm, Bool.and_left_comm]

theorem strict_check_iff (p ip : Nat) (hp : p ≤ 32) (hip : ip < 2 ^ 32) :
    (ip &&& maskOf p = ip) ↔ ip % 2 ^ (32 - p) = 0 := by
  constructor
  · intro h
    have hmod : maskOf p % 2 ^ (32 - p) = 0 := by
      rw [maskOf_pow p hp]
      exact Nat.mul_mod_left _ _
    calc ip % 2 ^ (32 - p)
        = ip &&& (2 ^ (32 - p) - 1) := (Nat.and_pow_two_sub_one_eq_mod ip _).symm
      _ = (ip &&& maskOf p) &&& (2 ^ (32 - p) - 1) := by rw [h]
      _ = ip &&& (maskOf p &&& (2 ^ (32 - p) - 1)) := Nat.and_assoc ip _ _
      _ = ip &&& (maskOf p % 2 ^ (32 - p)) := by rw [Nat.and_pow_two_sub_one_eq_mod]
      _ = ip &&& 0 := by rw [hmod]
      _ = 0 := Nat.and_zero ip
  · intro h
    obtain ⟨q, hq⟩ : 2 ^ (32 - p) ∣ ip := Nat.dvd_iff_mod_eq_zero.mpr h
    have hqlt : q < 2 ^ p := by
      by_contra hq2
      push_neg at hq2
      have h32 : (2:Nat) ^ 32 = 2 ^ (32 - p) * 2 ^ p := by
        rw [← pow_add]
        congr 1
        omega
      have : 2 ^ 32 ≤ ip := by
        rw [hq, h32]
        exact Nat.mul_le_mul_left _ hq2
      omega
    rw [hq, maskOf_pow p hp]
    rw [show (2:Nat) ^ (32 - p) * q = q <<< (32 - p) from by rw [Nat.shiftLeft_eq]; ring]
    rw [show ((2:Nat) ^ p - 1) * 2 ^ (32 - p) = (2 ^ p - 1) <<< (32 - p) from by
      rw [Nat.shiftLeft_eq]]
    rw [shiftLeft_land_shiftLeft, Nat.and_pow_two_sub_one_eq_mod, Nat.mod_eq_of_lt hqlt]

theorem ipIntFromPfx_eq : ∀ p < 33, ipIntFromPfx p = maskOf p := by decide

/-! ## Characterisation of `validate_cidr` -/

theorem pfx_string_eq (l : List Char) :
    pfxFromPfxString l = if pfxShapeOk l then some (digitsVal l) else none := by
  unfold pfxFromPfxString pfxShapeOk
  by_cases h1 : l.isEmpty
  · simp [h1]
  · by_cases h2 : l.all isDigitCh
    · by_cases h3 : digitsVal l ≤ 32 <;> simp [h1, h2, h3]
    · simp [h1, h2]

theorem make_netmask_eq (m : List Char) : make_netmask m = specNetmask m := by
  unfold make_netmask specNetmask
  rw [pfx_string_eq]
  by_cases hs : pfxShapeOk m
  · simp [hs]
  · simp only [hs, Bool.false_eq_true, if_false]
    rw [quad_eq]
    cases e : quadValSpec m with
    | none => rfl
    | some v =>
      have hv := quadValSpec_lt m v e
      show (match pfxFromIpInt v with
            | some p => some p
            | none => pfxFromIpInt (v ^^^ 0xFFFFFFFF))
          = (match maskPfxOf v with
             | some p => some p
             | none => hostmaskPfxOf v)
      rw [pfxFromIpInt_eq_maskPfxOf v hv]
      cases maskPfxOf v with
      | some p => rfl
      | none => exact hostmask_equiv v hv

theorem specNetmask_le (m : List Char) (p : Nat) (h : specNetmask m = some p) : p ≤ 32 := by
  unfold specNetmask at h
  by_cases hs : pfxShapeOk m
  · rw [if_pos hs] at h
    injection h with h'
    unfold pfxShapeOk at hs
    simp only [Bool.and_eq_true, decide_eq_true_eq] at hs
    omega
  · rw [if_neg hs] at h
    split at h
    · exact absurd h (by simp)
    · split at h
      · injection h with h'
        subst h'
        rename_i v _ p' e2
        have hmem := List.mem_of_find?_eq_some e2
        rw [List.mem_range] at hmem
        omega
      · have hmem := List.mem_of_find?_eq_some h
        rw [List.mem_range] at hmem
        omega

theorem ipv4_isSome_eq_accepts (s : String) :
    (ipv4NetworkStrict s.data).isSome = acceptsCidr s := by
  unfold ipv4NetworkStrict acceptsCidr
  cases e : splitOnChar '/' s.data with
  | nil => rfl
  | cons addr r1 =>
    cases r1 with
    | nil =>
      show (match ip_int_from_string addr with
            | none => none
            | some ip =>
              if ip &&& ipIntFromPfx 32 = ip then some (ip, 32) else none).isSome
          = (quadValSpec addr).isSome
      rw [quad_eq]
      cases e2 : quadValSpec addr with
      | none => rfl
      | some ip =>
        have hip := quadValSpec_lt _ _ e2
        have hmask : ipIntFromPfx 32 = maskOf 32 := ipIntFromPfx_eq 32 (by omega)
        have hand : ip &&& ipIntFromPfx 32 = ip := by
          rw [hmask]
          exact (strict_check_iff 32 ip (le_refl 32) hip).mpr (Nat.mod_one ip)
        simp [hand]
    | cons m r2 =>
      cases r2 with
      | cons _ _ => rfl
      | nil =>
        show (match ip_int_from_string addr with
              | none => none
              | some ip =>
                match make_netmask m with
                | none => none
                | some p =>
                  if ip &&& ipIntFromPfx p = ip then some (ip, p) else none).isSome
            = (match quadValSpec addr with
               | none => false
               | some ip =>
                 match specNetmask m with
                 | none => false
                 | some p => ip % 2 ^ (32 - p) == 0)
        rw [quad_eq]
        cases e2 : quadValSpec addr with
        | none => rfl
        | some ip =>
          have hip := quadValSpec_lt _ _ e2
          show (match make_netmask m with
                | none => none
                | some p =>
                  if ip &&& ipIntFromPfx p = ip then some (ip, p) else none).isSome
              = (match specNetmask m with
                 | none => false
                 | some p => ip % 2 ^ (32 - p) == 0)
          rw [make_netmask_eq]
          cases e3 : specNetmask m with
          | none => rfl
          | some p =>
            have hp := specNetmask_le m p e3
            have hm : ipIntFromPfx p = maskOf p := ipIntFromPfx_eq p (by omega)
            show (if ip &&& ipIntFromPfx p = ip then some (ip, p) else none).isSome
                = (ip % 2 ^ (32 - p) == 0)
            rw [hm]
            by_cases hc : ip &&& maskOf p = ip
            · have hz := (strict_check_iff p ip hp hip).mp hc
              simp [hc, hz]
            · have hz : ¬ ip % 2 ^ (32 - p) = 0 :=
                fun hz0 => hc ((strict_check_iff p ip hp hip).mpr hz0)
              simp [hc, hz]

theorem validate_cidr_eq (s : String) :
    validate_cidr s
      = if acceptsCidr s then .ok s else .error ("Invalid CIDR: " ++ s) := by
  have h := ipv4_isSome_eq_accepts s
  unfold validate_cidr
  cases e : ipv4NetworkStrict s.data <;> rw [e] at h
  · have h' : acceptsCidr s = false := h.symm
    rw [h']
    simp
  · have h' : acceptsCidr s = true := h.symm
    rw [h']
    simp

/-! ## Claim theorems about `validate_cidr` -/

/-- C1, counterexample: the claim says every string that is not of the
form `a.b.c.d/n` (octets in [0,255], `n` in [0,32]) — including strings
with a missing prefix — fails with the invalid-input error.  The string
`"10.0.0.0"` has a missing prefix, so it is not of that form, yet
`validate_cidr` accepts it (Python's `IPv4Network` treats it as `/32`). -/
theorem c1_counterexample :
    isShapeCidr "10.0.0.0" = false
      ∧ validate_cidr "10.0.0.0" = Except.ok "10.0.0.0" := ⟨rfl, rfl⟩

/-- C1, amended: `validate_cidr` accepts exactly the strings described by
`acceptsCidr` — a canonical dotted quad `a.b.c.d`, optionally followed by
a slash and either a decimal prefix length in [0,32] (leading zeros
permitted) or a dotted-quad netmask or hostmask, where the address must
have all host bits below the prefix clear; every other string fails with
the invalid-input error `"Invalid CIDR: " ++ s`. -/
theorem c1_accept_characterization (s : String) :
    validate_cidr s
      = if acceptsCidr s then .ok s else .error ("Invalid CIDR: " ++ s) :=
  validate_cidr_eq s

/-- C9 (confirmed): `validate_cidr` is idempotent — whenever it succeeds,
it returns its input string unchanged, so validating the returned block
succeeds again and yields an equal block. -/
theorem c9_idempotent (s t : String) (h : validate_cidr s = .ok t) :
    t = s ∧ validate_cidr t = .ok t := by
  unfold validate_cidr at h
  split at h
  · injection h with h'
    subst h'
    rename_i v e
    refine ⟨rfl, ?_⟩
    unfold validate_cidr
    rw [e]
  · exact absurd h (by simp)

/-- C9 witness: validating a concrete valid CIDR string yields the input
back, and re-validating that output succeeds and is equal. -/
theorem c9_idempotent_witness :
    "10.0.0.0/16" = "10.0.0.0/16"
      ∧ validate_cidr "10.0.0.0/16" = .ok "10.0.0.0/16" :=
  c9_idempotent "10.0.0.0/16" "10.0.0.0/16" rfl

/-- C10 (confirmed): any string of the well-formed shape `a.b.c.d/n`
(canonical octets in [0,255], decimal `n` in [0,32]) whose address has a
host bit set below the prefix is rejected by `validate_cidr` with the
invalid-input error, because the network is parsed in strict mode. -/
theorem c10_host_bits_rejected (s : String) (ip n : Nat)
    (hsp : shapeParse s = some (ip, n)) (hbits : ip % 2 ^ (32 - n) ≠ 0) :
    validate_cidr s = .error ("Invalid CIDR: " ++ s) := by
  rw [validate_cidr_eq]
  suffices hacc : acceptsCidr s = false by rw [hacc]; simp
  unfold shapeParse at hsp
  cases e : splitOnChar '/' s.data <;> rw [e] at hsp
  case nil => simp at hsp
  case cons addr r1 =>
    cases r1 with
    | nil => simp at hsp
    | cons m r2 =>
      cases r2 with
      | cons _ _ => simp at hsp
      | nil =>
        have hsp2 : (match quadValSpec addr with
              | none => none
              | some ip => if pfxShapeOk m then some (ip, digitsVal m) else none)
            = some (ip, n) := hsp
        clear hsp
        cases e2 : quadValSpec addr <;> rw [e2] at hsp2
        case none => simp at hsp2
        case some v =>
          have hsp3 : (if pfxShapeOk m then some (v, digitsVal m) else none)
              = some (ip, n) := hsp2
          clear hsp2
          by_cases hm : pfxShapeOk m
          · rw [if_pos hm] at hsp3
            injection hsp3 with hsp'
            have hv : v = ip := congrArg Prod.fst hsp'
            have hn : digitsVal m = n := congrArg Prod.snd hsp'
            unfold acceptsCidr
            rw [e]
            show (match quadValSpec addr with
                  | none => false
                  | some ip =>
                    match specNetmask m with
                    | none => false
                    | some p => ip % 2 ^ (32 - p) == 0) = false
            rw [e2]
            have hsm : specNetmask m = some (digitsVal m) := by
              unfold specNetmask
              rw [if_pos hm]
            show (match specNetmask m with
                  | none => false
                  | some p => v % 2 ^ (32 - p) == 0) = false
            rw [hsm]
            show (v % 2 ^ (32 - digitsVal m) == 0) = false
            rw [hv, hn]
            exact beq_eq_false_iff_ne.mpr hbits
          · rw [if_neg hm] at hsp3
            simp at hsp3

/-- C10 witness: the concrete well-formed string `"10.0.1.1/24"` has host
bit 0 set below its /24 prefix and is rejected. -/
theorem c10_host_bits_rejected_witness :
    validate_cidr "10.0.1.1/24" = .error ("Invalid CIDR: " ++ "10.0.1.1/24") :=
  c10_host_bits_rejected "10.0.1.1/24" 167772417 24 rfl (by decide)

/-! ## Embedding of the provisioning executor

The workflow in `main` (argpase.py lines 52-81) calls the boto3 EC2
resource client.  The client is modelled as a response oracle: given the
history of calls made so far and the next call, it either returns the
response string (a resource id; tag/attach/associate/route/wait calls
return an ignored value) or raises, which the oracle models as `.error`.
The alphabet of calls also contains the teardown operations the real
client offers (delete/detach/disassociate); the program never invokes
them, which is what the no-rollback claims are about. -/

inductive Call where
  | createVpc (cidr : String)
  | waitUntilAvailable (vpc : String)
  | createTags (res key value : String)
  | createInternetGateway
  | attachToVpc (igw vpc : String)
  | createSubnet (vpc cidr az : String)
  | createRouteTable (vpc : String)
  | associateWithSubnet (table subnet : String)
  | createRoute (table destCidr gatewayId : String)
  | deleteVpc (vpc : String)
  | deleteInternetGateway (igw : String)
  | detachFromVpc (igw vpc : String)
  | deleteSubnet (subnet : String)
  | deleteRouteTable (table : String)
  | disassociateRouteTable (table subnet : String)
  deriving DecidableEq

/-- A client behaviour: response to a call, given the call history. -/
def Behavior : Type := List Call → Call → Except String String

/-- Outcome of one provisioning step: the remote calls it made, the lines
it printed, and its result (the produced handle or the raised error). -/
structure StepOut where
  trace : List Call
  out : List String
  res : Except String String

/-- Success line printed by `create_vpc` (line 20). -/
def vpcLine (v : String) : String := "\u2705 Created VPC: " ++ v

/-- Success line printed by `create_internet_gateway` (line 27). -/
def igwLine (g : String) : String := "\u2705 Created and attached Internet Gateway: " ++ g

/-- Success line printed by `create_subnet` (line 34). -/
def subnetLine (sn name : String) : String :=
  "\u2705 Created Subnet: " ++ sn ++ " (" ++ name ++ ")"

/-- Line printed by `create_route_table` when a default route is added (line 45). -/
def pubRouteLine (name : String) : String :=
  "\u2705 Public Route added to IGW in " ++ name

/-- Line printed by `create_route_table` when no default route is added (line 47). -/
def privRouteLine (tb : String) : String :=
  "\u2705 Created private Route Table: " ++ tb

/-- Embedding of `create_vpc` (lines 16-21): create the VPC, wait until
it is available, tag it with the name, print the success line, return the
VPC id.  An exception at any remote call aborts the step. -/
def run_create_vpc (b : Behavior) (t0 : List Call) (cidr name : String) : StepOut :=
  match b t0 (.createVpc cidr) with
  | .error e => ⟨[.createVpc cidr], [], .error e⟩
  | .ok v =>
    match b (t0 ++ [.createVpc cidr]) (.waitUntilAvailable v) with
    | .error e => ⟨[.createVpc cidr, .waitUntilAvailable v], [], .error e⟩
    | .ok _ =>
      match b (t0 ++ [.createVpc cidr, .waitUntilAvailable v])
          (.createTags v "Name" name) with
      | .error e =>
        ⟨[.createVpc cidr, .waitUntilAvailable v, .createTags v "Name" name], [], .error e⟩
      | .ok _ =>
        ⟨[.createVpc cidr, .waitUntilAvailable v, .createTags v "Name" name],
         [vpcLine v], .ok v⟩

/-- Embedding of `create_internet_gateway` (lines 24-28). -/
def run_create_internet_gateway (b : Behavior) (t0 : List Call) (vpc : String) : StepOut :=
  match b t0 .createInternetGateway with
  | .error e => ⟨[.createInternetGateway], [], .error e⟩
  | .ok g =>
    match b (t0 ++ [.createInternetGateway]) (.attachToVpc g vpc) with
    | .error e => ⟨[.createInternetGateway, .attachToVpc g vpc], [], .error e⟩
    | .ok _ =>
      ⟨[.createInternetGateway, .attachToVpc g vpc],
       [igwLine g], .ok g⟩

/-- Embedding of `create_subnet` (lines 31-35). -/
def run_create_subnet (b : Behavior) (t0 : List Call)
    (vpc cidr name az : String) : StepOut :=
  match b t0 (.createSubnet vpc cidr az) with
  | .error e => ⟨[.createSubnet vpc cidr az], [], .error e⟩
  | .ok sn =>
    match b (t0 ++ [.createSubnet vpc cidr az]) (.createTags sn "Name" name) with
    | .error e => ⟨[.createSubnet vpc cidr az, .createTags sn "Name" name], [], .error e⟩
    | .ok _ =>
      ⟨[.createSubnet vpc cidr az, .createTags sn "Name" name],
       [subnetLine sn name], .ok sn⟩

/-- Embedding of `create_route_table` (lines 38-49): create the table,
tag it, associate it with the subnet, and — only when `igw_id` is truthy,
i.e. not `None` and not the empty string — add the 0.0.0.0/0 default
route.  Note the printed line for the public branch does not contain the
table id, while the private branch's line does. -/
def run_create_route_table (b : Behavior) (t0 : List Call)
    (vpc subnet : String) (igw : Option String) (name : String) : StepOut :=
  match b t0 (.createRouteTable vpc) with
  | .error e => ⟨[.createRouteTable vpc], [], .error e⟩
  | .ok tb =>
    match b (t0 ++ [.createRouteTable vpc]) (.createTags tb "Name" name) with
    | .error e => ⟨[.createRouteTable vpc, .createTags tb "Name" name], [], .error e⟩
    | .ok _ =>
      match b (t0 ++ [.createRouteTable vpc, .createTags tb "Name" name])
          (.associateWithSubnet tb subnet) with
      | .error e =>
        ⟨[.createRouteTable vpc, .createTags tb "Name" name,
          .associateWithSubnet tb subnet], [], .error e⟩
      | .ok _ =>
        match igw with
        | some g =>
          if g = "" then
            ⟨[.createRouteTable vpc, .createTags tb "Name" name,
              .associateWithSubnet tb subnet],
             [privRouteLine tb], .ok tb⟩
          else
            match b (t0 ++ [.createRouteTable vpc, .createTags tb "Name" name,
                .associateWithSubnet tb subnet]) (.createRoute tb "0.0.0.0/0" g) with
            | .error e =>
              ⟨[.createRouteTable vpc, .createTags tb "Name" name,
                .associateWithSubnet tb subnet, .createRoute tb "0.0.0.0/0" g],
               [], .error e⟩
            | .ok _ =>
              ⟨[.createRouteTable vpc, .createTags tb "Name" name,
                .associateWithSubnet tb subnet, .createRoute tb "0.0.0.0/0" g],
               [pubRouteLine name], .ok tb⟩
        | none =>
          ⟨[.createRouteTable vpc, .createTags tb "Name" name,
            .associateWithSubnet tb subnet],
           [privRouteLine tb], .ok tb⟩

/-- The error line printed by `main`'s except-block (line 80). -/
def errLine (e : String) : String := "❌ Error: " ++ e

/-- The final success line printed by `main` (line 77). -/
def doneLine : String := "🎉 All resources created successfully!"

/-- Result of executing `main`'s try-block: the full remote-call trace,
the printed lines, and either success or the caught error (which makes
the process exit with status 1). -/
structure ExecOut where
  trace : List Call
  out : List String
  res : Except String Unit

/-- Step 1 of the plan, with its starting history (empty). -/
def st1 (b : Behavior) (vc vn : String) : StepOut := run_create_vpc b [] vc vn

/-- Call history after step 1. -/
def hist1 (b : Behavior) (vc vn : String) : List Call := (st1 b vc vn).trace

/-- Step 2 (gateway), given the VPC handle from step 1. -/
def st2 (b : Behavior) (vc vn v : String) : StepOut :=
  run_create_internet_gateway b (hist1 b vc vn) v

/-- Call history after step 2. -/
def hist2 (b : Behavior) (vc vn v : String) : List Call :=
  hist1 b vc vn ++ (st2 b vc vn v).trace

/-- Step 3 (public subnet). -/
def st3 (b : Behavior) (vc vn pc az v : String) : StepOut :=
  run_create_subnet b (hist2 b vc vn v) v pc "PublicSubnet" az

/-- Call history after step 3. -/
def hist3 (b : Behavior) (vc vn pc az v : String) : List Call :=
  hist2 b vc vn v ++ (st3 b vc vn pc az v).trace

/-- Step 4 (private subnet). -/
def st4 (b : Behavior) (vc vn pc qc az v : String) : StepOut :=
  run_create_subnet b (hist3 b vc vn pc az v) v qc "PrivateSubnet" az

/-- Call history after step 4. -/
def hist4 (b : Behavior) (vc vn pc qc az v : String) : List Call :=
  hist3 b vc vn pc az v ++ (st4 b vc vn pc qc az v).trace

/-- Step 5 (public route table), given the gateway handle from step 2 and
the public subnet handle from step 3. -/
def st5 (b : Behavior) (vc vn pc qc az v g sp : String) : StepOut :=
  run_create_route_table b (hist4 b vc vn pc qc az v) v sp (some g) "PublicRouteTable"

/-- Call history after step 5. -/
def hist5 (b : Behavior) (vc vn pc qc az v g sp : String) : List Call :=
  hist4 b vc vn pc qc az v ++ (st5 b vc vn pc qc az v g sp).trace

/-- Step 6 (private route table), given the private subnet handle from
step 4 and no gateway handle. -/
def st6 (b : Behavior) (vc vn pc qc az v g sp sq : String) : StepOut :=
  run_create_route_table b (hist5 b vc vn pc qc az v g sp) v sq none "PrivateRouteTable"

/-- Embedding of `main`'s try/except block (lines 67-81): run the six
steps in order, threading handles; the first exception stops execution,
prints the error line and exits with status 1; on success print the final
line. -/
def execPlan (b : Behavior) (vc vn pc qc az : String) : ExecOut :=
  let s1 := st1 b vc vn
  match s1.res with
  | .error e => ⟨s1.trace, s1.out ++ [errLine e], .error e⟩
  | .ok v =>
    let s2 := st2 b vc vn v
    match s2.res with
    | .error e => ⟨s1.trace ++ s2.trace, s1.out ++ s2.out ++ [errLine e], .error e⟩
    | .ok g =>
      let s3 := st3 b vc vn pc az v
      match s3.res with
      | .error e =>
        ⟨s1.trace ++ s2.trace ++ s3.trace,
         s1.out ++ s2.out ++ s3.out ++ [errLine e], .error e⟩
      | .ok sp =>
        let s4 := st4 b vc vn pc qc az v
        match s4.res with
        | .error e =>
          ⟨s1.trace ++ s2.trace ++ s3.trace ++ s4.trace,
           s1.out ++ s2.out ++ s3.out ++ s4.out ++ [errLine e], .error e⟩
        | .ok sq =>
          let s5 := st5 b vc vn pc qc az v g sp
          match s5.res with
          | .error e =>
            ⟨s1.trace ++ s2.trace ++ s3.trace ++ s4.trace ++ s5.trace,
             s1.out ++ s2.out ++ s3.out ++ s4.out ++ s5.out ++ [errLine e], .error e⟩
          | .ok _ =>
            let s6 := st6 b vc vn pc qc az v g sp sq
            match s6.res with
            | .error e =>
              ⟨s1.trace ++ s2.trace ++ s3.trace ++ s4.trace ++ s5.trace ++ s6.trace,
               s1.out ++ s2.out ++ s3.out ++ s4.out ++ s5.out ++ s6.out ++ [errLine e],
               .error e⟩
            | .ok _ =>
              ⟨s1.trace ++ s2.trace ++ s3.trace ++ s4.trace ++ s5.trace ++ s6.trace,
               s1.out ++ s2.out ++ s3.out ++ s4.out ++ s5.out ++ s6.out ++ [doneLine],
               .ok ()⟩

/-- Result of a whole `main` invocation, including whether the boto3 EC2
client was constructed (line 65, reached only after argument parsing
succeeds). -/
structure MainOut where
  clientConstructed : Bool
  trace : List Call
  out : List String
  res : Except String Unit

/-- Embedding of `main` (lines 52-81): argparse applies `validate_cidr`
to the three CIDR options while parsing; a failing validator aborts the
process before the EC2 client is constructed and before any remote call;
otherwise the client is constructed and the six steps run. -/
def main_run (b : Behavior) (vc vn pc qc az : String) : MainOut :=
  match validate_cidr vc with
  | .error e => ⟨false, [], [], .error e⟩
  | .ok vc' =>
    match validate_cidr pc with
    | .error e => ⟨false, [], [], .error e⟩
    | .ok pc' =>
      match validate_cidr qc with
      | .error e => ⟨false, [], [], .error e⟩
      | .ok qc' =>
        let r := execPlan b vc' vn pc' qc' az
        ⟨true, r.trace, r.out, r.res⟩

/-- Calls that initiate one of the six provisioning steps. -/
def isStepInit : Call → Bool
  | .createVpc _ | .createInternetGateway | .createSubnet _ _ _
  | .createRouteTable _ => true
  | _ => false

/-- Teardown calls: deletes, detaches and disassociations. -/
def isTeardown : Call → Bool
  | .deleteVpc _ | .deleteInternetGateway _ | .detachFromVpc _ _
  | .deleteSubnet _ | .deleteRouteTable _ | .disassociateRouteTable _ _ => true
  | _ => false

/-- Subnet-creation calls. -/
def isCreateSubnetCall : Call → Bool
  | .createSubnet _ _ _ => true
  | _ => false

/-- Default-route-creation calls. -/
def isCreateRouteCall : Call → Bool
  | .createRoute _ _ _ => true
  | _ => false

/-- A behaviour on which every call succeeds, with responses given by `f`. -/
def okB (f : List Call → Call → String) : Behavior := fun t c => .ok (f t c)

/-! ## Per-step lemmas -/

theorem run_create_vpc_stepInit (b : Behavior) (t0 : List Call) (cidr name : String) :
    (run_create_vpc b t0 cidr name).trace.countP isStepInit = 1 := by
  unfold run_create_vpc
  repeat' split
  all_goals rfl

theorem run_create_vpc_teardown (b : Behavior) (t0 : List Call) (cidr name : String) :
    (run_create_vpc b t0 cidr name).trace.countP isTeardown = 0 := by
  unfold run_create_vpc
  repeat' split
  all_goals rfl

theorem run_create_vpc_subnetfree (b : Behavior) (t0 : List Call) (cidr name : String) :
    (run_create_vpc b t0 cidr name).trace.countP isCreateSubnetCall = 0 := by
  unfold run_create_vpc
  repeat' split
  all_goals rfl

theorem run_create_vpc_err_out (b : Behavior) (t0 : List Call) (cidr name e : String) :
    (run_create_vpc b t0 cidr name).res = .error e →
    (run_create_vpc b t0 cidr name).out = [] := by
  intro h
  unfold run_create_vpc at h ⊢
  split at h
  next e1 heq => simp [heq]
  next w heq =>
    split at h
    next e1 heq2 => simp [heq, heq2]
    next r heq2 =>
      split at h
      next e1 heq3 => simp [heq, heq2, heq3]
      next r2 heq3 => simp at h

theorem run_create_vpc_ok_inv (b : Behavior) (t0 : List Call) (cidr name v : String) :
    (run_create_vpc b t0 cidr name).res = .ok v →
    ((run_create_vpc b t0 cidr name).trace
        = [.createVpc cidr, .waitUntilAvailable v, .createTags v "Name" name]
      ∧ (run_create_vpc b t0 cidr name).out = [vpcLine v]
      ∧ b t0 (.createVpc cidr) = .ok v
      ∧ ∃ r, b (t0 ++ [.createVpc cidr]) (.waitUntilAvailable v) = .ok r) := by
  intro h
  unfold run_create_vpc at h ⊢
  split at h
  next e1 heq => simp at h
  next w heq =>
    split at h
    next e1 heq2 => simp at h
    next r heq2 =>
      split at h
      next e1 heq3 => simp at h
      next r2 heq3 =>
        simp only [Except.ok.injEq] at h
        subst h
        refine ⟨?_, ?_, heq, ⟨r, heq2⟩⟩ <;> simp [heq, heq2, heq3]

theorem run_create_internet_gateway_stepInit (b : Behavior) (t0 : List Call) (vpc : String) :
    (run_create_internet_gateway b t0 vpc).trace.countP isStepInit = 1 := by
  unfold run_create_internet_gateway
  repeat' split
  all_goals rfl

theorem run_create_internet_gateway_teardown (b : Behavior) (t0 : List Call) (vpc : String) :
    (run_create_internet_gateway b t0 vpc).trace.countP isTeardown = 0 := by
  unfold run_create_internet_gateway
  repeat' split
  all_goals rfl

theorem run_create_internet_gateway_subnetfree (b : Behavior) (t0 : List Call) (vpc : String) :
    (run_create_internet_gateway b t0 vpc).trace.countP isCreateSubnetCall = 0 := by
  unfold run_create_internet_gateway
  repeat' split
  all_goals rfl

theorem run_create_internet_gateway_err_out (b : Behavior) (t0 : List Call) (vpc e : String) :
    (run_create_internet_gateway b t0 vpc).res = .error e →
    (run_create_internet_gateway b t0 vpc).out = [] := by
  intro h
  unfold run_create_internet_gateway at h ⊢
  split at h
  next e1 heq => simp [heq]
  next w heq =>
    split at h
    next e1 heq2 => simp [heq, heq2]
    next r heq2 => simp at h

theorem run_create_internet_gateway_ok_out (b : Behavior) (t0 : List Call) (vpc g : String) :
    (run_create_internet_gateway b t0 vpc).res = .ok g →
    (run_create_internet_gateway b t0 vpc).out = [igwLine g] := by
  intro h
  unfold run_create_internet_gateway at h ⊢
  split at h
  next e1 heq => simp at h
  next w heq =>
    split at h
    next e1 heq2 => simp at h
    next r heq2 =>
      simp only [Except.ok.injEq] at h
      subst h
      simp [heq, heq2]

theorem run_create_subnet_stepInit (b : Behavior) (t0 : List Call) (vpc cidr name az : String) :
    (run_create_subnet b t0 vpc cidr name az).trace.countP isStepInit = 1 := by
  unfold run_create_subnet
  repeat' split
  all_goals rfl

theorem run_create_subnet_teardown (b : Behavior) (t0 : List Call) (vpc cidr name az : String) :
    (run_create_subnet b t0 vpc cidr name az).trace.countP isTeardown = 0 := by
  unfold run_create_subnet
  repeat' split
  all_goals rfl

theorem run_create_subnet_err_out (b : Behavior) (t0 : List Call) (vpc cidr name az e : String) :
    (run_create_subnet b t0 vpc cidr name az).res = .error e →
    (run_create_subnet b t0 vpc cidr name az).out = [] := by
  intro h
  unfold run_create_subnet at h ⊢
  split at h
  next e1 heq => simp [heq]
  next w heq =>
    split at h
    next e1 heq2 => simp [heq, heq2]
    next r heq2 => simp at h

theorem run_create_subnet_ok_out (b : Behavior) (t0 : List Call) (vpc cidr name az sn : String) :
    (run_create_subnet b t0 vpc cidr name az).res = .ok sn →
    (run_create_subnet b t0 vpc cidr name az).out = [subnetLine sn name] := by
  intro h
  unfold run_create_subnet at h ⊢
  split at h
  next e1 heq => simp at h
  next w heq =>
    split at h
    next e1 heq2 => simp at h
    next r heq2 =>
      simp only [Except.ok.injEq] at h
      subst h
      simp [heq, heq2]

theorem run_create_route_table_stepInit (b : Behavior) (t0 : List Call)
    (vpc subnet : String) (igw : Option String) (name : String) :
    (run_create_route_table b t0 vpc subnet igw name).trace.countP isStepInit = 1 := by
  unfold run_create_route_table
  repeat' split
  all_goals rfl

theorem run_create_route_table_teardown (b : Behavior) (t0 : List Call)
    (vpc subnet : String) (igw : Option String) (name : String) :
    (run_create_route_table b t0 vpc subnet igw name).trace.countP isTeardown = 0 := by
  unfold run_create_route_table
  repeat' split
  all_goals rfl

theorem run_create_route_table_subnetfree (b : Behavior) (t0 : List Call)
    (vpc subnet : String) (igw : Option String) (name : String) :
    (run_create_route_table b t0 vpc subnet igw name).trace.countP isCreateSubnetCall = 0 := by
  unfold run_create_route_table
  repeat' split
  all_goals rfl

theorem run_create_route_table_err_out (b : Behavior) (t0 : List Call)
    (vpc subnet : String) (igw : Option String) (name e : String) :
    (run_create_route_table b t0 vpc subnet igw name).res = .error e →
    (run_create_route_table b t0 vpc subnet igw name).out = [] := by
  intro h
  unfold run_create_route_table at h ⊢
  split at h
  next e1 heq => simp [heq]
  next w heq =>
    split at h
    next e1 heq2 => simp [heq, heq2]
    next r heq2 =>
      split at h
      next e1 heq3 => simp [heq, heq2, heq3]
      next r2 heq3 =>
        split at h
        next g =>
          split at h
          next hg => simp at h
          next hg =>
            split at h
            next e1 heq4 => simp [heq, heq2, heq3, heq4, hg]
            next r3 heq4 => simp at h
        next => simp at h

theorem run_create_route_table_ok_out (b : Behavior) (t0 : List Call)
    (vpc subnet : String) (igw : Option String) (name tb : String) :
    (run_create_route_table b t0 vpc subnet igw name).res = .ok tb →
    (run_create_route_table b t0 vpc subnet igw name).out
      = (match igw with
         | some g => if g = "" then [privRouteLine tb] else [pubRouteLine name]
         | none => [privRouteLine tb]) := by
  intro h
  unfold run_create_route_table at h ⊢
  split at h
  next e1 heq => simp at h
  next w heq =>
    split at h
    next e1 heq2 => simp at h
    next r heq2 =>
      split at h
      next e1 heq3 => simp at h
      next r2 heq3 =>
        split at h
        next g =>
          split at h
          next hg =>
            simp only [Except.ok.injEq] at h
            subst h
            simp [heq, heq2, heq3, hg]
          next hg =>
            split at h
            next e1 heq4 => simp at h
            next r3 heq4 =>
              simp only [Except.ok.injEq] at h
              subst h
              simp [heq, heq2, heq3, heq4, hg]
        next =>
          simp only [Except.ok.injEq] at h
          subst h
          simp [heq, heq2, heq3]


/-! ## Step-level corollaries and executor shape lemmas -/

theorem st1_stepInit (b : Behavior) (vc vn : String) :
    (st1 b vc vn).trace.countP isStepInit = 1 := run_create_vpc_stepInit b [] vc vn

theorem st2_stepInit (b : Behavior) (vc vn v : String) :
    (st2 b vc vn v).trace.countP isStepInit = 1 :=
  run_create_internet_gateway_stepInit b (hist1 b vc vn) v

theorem st3_stepInit (b : Behavior) (vc vn pc az v : String) :
    (st3 b vc vn pc az v).trace.countP isStepInit = 1 :=
  run_create_subnet_stepInit b (hist2 b vc vn v) v pc "PublicSubnet" az

theorem st4_stepInit (b : Behavior) (vc vn pc qc az v : String) :
    (st4 b vc vn pc qc az v).trace.countP isStepInit = 1 :=
  run_create_subnet_stepInit b (hist3 b vc vn pc az v) v qc "PrivateSubnet" az

theorem st5_stepInit (b : Behavior) (vc vn pc qc az v g sp : String) :
    (st5 b vc vn pc qc az v g sp).trace.countP isStepInit = 1 :=
  run_create_route_table_stepInit b (hist4 b vc vn pc qc az v) v sp (some g) "PublicRouteTable"

theorem st6_stepInit (b : Behavior) (vc vn pc qc az v g sp sq : String) :
    (st6 b vc vn pc qc az v g sp sq).trace.countP isStepInit = 1 :=
  run_create_route_table_stepInit b (hist5 b vc vn pc qc az v g sp) v sq none "PrivateRouteTable"

theorem st1_teardown (b : Behavior) (vc vn : String) :
    (st1 b vc vn).trace.countP isTeardown = 0 := run_create_vpc_teardown b [] vc vn

theorem st2_teardown (b : Behavior) (vc vn v : String) :
    (st2 b vc vn v).trace.countP isTeardown = 0 :=
  run_create_internet_gateway_teardown b (hist1 b vc vn) v

theorem st3_teardown (b : Behavior) (vc vn pc az v : String) :
    (st3 b vc vn pc az v).trace.countP isTeardown = 0 :=
  run_create_subnet_teardown b (hist2 b vc vn v) v pc "PublicSubnet" az

theorem st4_teardown (b : Behavior) (vc vn pc qc az v : String) :
    (st4 b vc vn pc qc az v).trace.countP isTeardown = 0 :=
  run_create_subnet_teardown b (hist3 b vc vn pc az v) v qc "PrivateSubnet" az

theorem st5_teardown (b : Behavior) (vc vn pc qc az v g sp : String) :
    (st5 b vc vn pc qc az v g sp).trace.countP isTeardown = 0 :=
  run_create_route_table_teardown b (hist4 b vc vn pc qc az v) v sp (some g) "PublicRouteTable"

theorem st6_teardown (b : Behavior) (vc vn pc qc az v g sp sq : String) :
    (st6 b vc vn pc qc az v g sp sq).trace.countP isTeardown = 0 :=
  run_create_route_table_teardown b (hist5 b vc vn pc qc az v g sp) v sq none "PrivateRouteTable"

theorem st1_subnetfree (b : Behavior) (vc vn : String) :
    (st1 b vc vn).trace.countP isCreateSubnetCall = 0 :=
  run_create_vpc_subnetfree b [] vc vn

theorem st1_err_out (b : Behavior) (vc vn e : String)
    (h : (st1 b vc vn).res = .error e) : (st1 b vc vn).out = [] :=
  run_create_vpc_err_out b [] vc vn e h

theorem st2_err_out (b : Behavior) (vc vn v e : String)
    (h : (st2 b vc vn v).res = .error e) : (st2 b vc vn v).out = [] :=
  run_create_internet_gateway_err_out b (hist1 b vc vn) v e h

theorem st3_err_out (b : Behavior) (vc vn pc az v e : String)
    (h : (st3 b vc vn pc az v).res = .error e) : (st3 b vc vn pc az v).out = [] :=
  run_create_subnet_err_out b (hist2 b vc vn v) v pc "PublicSubnet" az e h

theorem st4_err_out (b : Behavior) (vc vn pc qc az v e : String)
    (h : (st4 b vc vn pc qc az v).res = .error e) : (st4 b vc vn pc qc az v).out = [] :=
  run_create_subnet_err_out b (hist3 b vc vn pc az v) v qc "PrivateSubnet" az e h

theorem st5_err_out (b : Behavior) (vc vn pc qc az v g sp e : String)
    (h : (st5 b vc vn pc qc az v g sp).res = .error e) :
    (st5 b vc vn pc qc az v g sp).out = [] :=
  run_create_route_table_err_out b (hist4 b vc vn pc qc az v) v sp (some g)
    "PublicRouteTable" e h

theorem st6_err_out (b : Behavior) (vc vn pc qc az v g sp sq e : String)
    (h : (st6 b vc vn pc qc az v g sp sq).res = .error e) :
    (st6 b vc vn pc qc az v g sp sq).out = [] :=
  run_create_route_table_err_out b (hist5 b vc vn pc qc az v g sp) v sq none
    "PrivateRouteTable" e h

theorem st1_ok_out (b : Behavior) (vc vn v : String)
    (h : (st1 b vc vn).res = .ok v) : (st1 b vc vn).out = [vpcLine v] :=
  (run_create_vpc_ok_inv b [] vc vn v h).2.1

theorem st2_ok_out (b : Behavior) (vc vn v g : String)
    (h : (st2 b vc vn v).res = .ok g) : (st2 b vc vn v).out = [igwLine g] :=
  run_create_internet_gateway_ok_out b (hist1 b vc vn) v g h

theorem st3_ok_out (b : Behavior) (vc vn pc az v sp : String)
    (h : (st3 b vc vn pc az v).res = .ok sp) :
    (st3 b vc vn pc az v).out = [subnetLine sp "PublicSubnet"] :=
  run_create_subnet_ok_out b (hist2 b vc vn v) v pc "PublicSubnet" az sp h

theorem st4_ok_out (b : Behavior) (vc vn pc qc az v sq : String)
    (h : (st4 b vc vn pc qc az v).res = .ok sq) :
    (st4 b vc vn pc qc az v).out = [subnetLine sq "PrivateSubnet"] :=
  run_create_subnet_ok_out b (hist3 b vc vn pc az v) v qc "PrivateSubnet" az sq h

theorem st5_ok_out (b : Behavior) (vc vn pc qc az v g sp tb1 : String)
    (h : (st5 b vc vn pc qc az v g sp).res = .ok tb1) :
    (st5 b vc vn pc qc az v g sp).out
      = if g = "" then [privRouteLine tb1] else [pubRouteLine "PublicRouteTable"] :=
  run_create_route_table_ok_out b (hist4 b vc vn pc qc az v) v sp (some g)
    "PublicRouteTable" tb1 h

theorem st6_ok_out (b : Behavior) (vc vn pc qc az v g sp sq tb2 : String)
    (h : (st6 b vc vn pc qc az v g sp sq).res = .ok tb2) :
    (st6 b vc vn pc qc az v g sp sq).out = [privRouteLine tb2] :=
  run_create_route_table_ok_out b (hist5 b vc vn pc qc az v g sp) v sq none
    "PrivateRouteTable" tb2 h

theorem st1_ok_inv (b : Behavior) (vc vn v : String)
    (h : (st1 b vc vn).res = .ok v) :
    (st1 b vc vn).trace = [.createVpc vc, .waitUntilAvailable v, .createTags v "Name" vn]
      ∧ b [] (.createVpc vc) = .ok v
      ∧ ∃ r, b [.createVpc vc] (.waitUntilAvailable v) = .ok r := by
  obtain ⟨h1, _, h2, ⟨r, h3⟩⟩ := run_create_vpc_ok_inv b [] vc vn v h
  rw [List.nil_append] at h3
  exact ⟨h1, h2, ⟨r, h3⟩⟩

theorem exec_fail1 (b : Behavior) (vc vn pc qc az e : String)
    (h1 : (st1 b vc vn).res = .error e) :
    execPlan b vc vn pc qc az
      = ⟨(st1 b vc vn).trace, (st1 b vc vn).out ++ [errLine e], .error e⟩ := by
  unfold execPlan
  simp only [h1]

theorem exec_fail2 (b : Behavior) (vc vn pc qc az v e : String)
    (h1 : (st1 b vc vn).res = .ok v)
    (h2 : (st2 b vc vn v).res = .error e) :
    execPlan b vc vn pc qc az
      = ⟨(st1 b vc vn).trace ++ (st2 b vc vn v).trace,
         (st1 b vc vn).out ++ (st2 b vc vn v).out ++ [errLine e], .error e⟩ := by
  unfold execPlan
  simp only [h1, h2]

theorem exec_fail3 (b : Behavior) (vc vn pc qc az v g e : String)
    (h1 : (st1 b vc vn).res = .ok v)
    (h2 : (st2 b vc vn v).res = .ok g)
    (h3 : (st3 b vc vn pc az v).res = .error e) :
    execPlan b vc vn pc qc az
      = ⟨(st1 b vc vn).trace ++ (st2 b vc vn v).trace ++ (st3 b vc vn pc az v).trace,
         (st1 b vc vn).out ++ (st2 b vc vn v).out ++ (st3 b vc vn pc az v).out
           ++ [errLine e], .error e⟩ := by
  unfold execPlan
  simp only [h1, h2, h3]

theorem exec_fail4 (b : Behavior) (vc vn pc qc az v g sp e : String)
    (h1 : (st1 b vc vn).res = .ok v)
    (h2 : (st2 b vc vn v).res = .ok g)
    (h3 : (st3 b vc vn pc az v).res = .ok sp)
    (h4 : (st4 b vc vn pc qc az v).res = .error e) :
    execPlan b vc vn pc qc az
      = ⟨(st1 b vc vn).trace ++ (st2 b vc vn v).trace ++ (st3 b vc vn pc az v).trace
           ++ (st4 b vc vn pc qc az v).trace,
         (st1 b vc vn).out ++ (st2 b vc vn v).out ++ (st3 b vc vn pc az v).out
           ++ (st4 b vc vn pc qc az v).out ++ [errLine e], .error e⟩ := by
  unfold execPlan
  simp only [h1, h2, h3, h4]

theorem exec_fail5 (b : Behavior) (vc vn pc qc az v g sp sq e : String)
    (h1 : (st1 b vc vn).res = .ok v)
    (h2 : (st2 b vc vn v).res = .ok g)
    (h3 : (st3 b vc vn pc az v).res = .ok sp)
    (h4 : (st4 b vc vn pc qc az v).res = .ok sq)
    (h5 : (st5 b vc vn pc qc az v g sp).res = .error e) :
    execPlan b vc vn pc qc az
      = ⟨(st1 b vc vn).trace ++ (st2 b vc vn v).trace ++ (st3 b vc vn pc az v).trace
           ++ (st4 b vc vn pc qc az v).trace ++ (st5 b vc vn pc qc az v g sp).trace,
         (st1 b vc vn).out ++ (st2 b vc vn v).out ++ (st3 b vc vn pc az v).out
           ++ (st4 b vc vn pc qc az v).out ++ (st5 b vc vn pc qc az v g sp).out
           ++ [errLine e], .error e⟩ := by
  unfold execPlan
  simp only [h1, h2, h3, h4, h5]

theorem exec_fail6 (b : Behavior) (vc vn pc qc az v g sp sq tb1 e : String)
    (h1 : (st1 b vc vn).res = .ok v)
    (h2 : (st2 b vc vn v).res = .ok g)
    (h3 : (st3 b vc vn pc az v).res = .ok sp)
    (h4 : (st4 b vc vn pc qc az v).res = .ok sq)
    (h5 : (st5 b vc vn pc qc az v g sp).res = .ok tb1)
    (h6 : (st6 b vc vn pc qc az v g sp sq).res = .error e) :
    execPlan b vc vn pc qc az
      = ⟨(st1 b vc vn).trace ++ (st2 b vc vn v).trace ++ (st3 b vc vn pc az v).trace
           ++ (st4 b vc vn pc qc az v).trace ++ (st5 b vc vn pc qc az v g sp).trace
           ++ (st6 b vc vn pc qc az v g sp sq).trace,
         (st1 b vc vn).out ++ (st2 b vc vn v).out ++ (st3 b vc vn pc az v).out
           ++ (st4 b vc vn pc qc az v).out ++ (st5 b vc vn pc qc az v g sp).out
           ++ (st6 b vc vn pc qc az v g sp sq).out ++ [errLine e], .error e⟩ := by
  unfold execPlan
  simp only [h1, h2, h3, h4, h5, h6]

theorem exec_ok_all (b : Behavior) (vc vn pc qc az v g sp sq tb1 tb2 : String)
    (h1 : (st1 b vc vn).res = .ok v)
    (h2 : (st2 b vc vn v).res = .ok g)
    (h3 : (st3 b vc vn pc az v).res = .ok sp)
    (h4 : (st4 b vc vn pc qc az v).res = .ok sq)
    (h5 : (st5 b vc vn pc qc az v g sp).res = .ok tb1)
    (h6 : (st6 b vc vn pc qc az v g sp sq).res = .ok tb2) :
    execPlan b vc vn pc qc az
      = ⟨(st1 b vc vn).trace ++ (st2 b vc vn v).trace ++ (st3 b vc vn pc az v).trace
           ++ (st4 b vc vn pc qc az v).trace ++ (st5 b vc vn pc qc az v g sp).trace
           ++ (st6 b vc vn pc qc az v g sp sq).trace,
         (st1 b vc vn).out ++ (st2 b vc vn v).out ++ (st3 b vc vn pc az v).out
           ++ (st4 b vc vn pc qc az v).out ++ (st5 b vc vn pc qc az v g sp).out
           ++ (st6 b vc vn pc qc az v g sp sq).out ++ [doneLine], .ok ()⟩ := by
  unfold execPlan
  simp only [h1, h2, h3, h4, h5, h6]

/-! ## Failure specifications -/

/-- Execution fails at step `k` with error `e`, after steps `1..k-1`
produced exactly the handles `hs` (in order). -/
def failsAtStepWith (b : Behavior) (vc vn pc qc az : String) :
    Nat → List String → String → Prop
  | 1, [], e => (st1 b vc vn).res = .error e
  | 2, [v], e => (st1 b vc vn).res = .ok v ∧ (st2 b vc vn v).res = .error e
  | 3, [v, g], e => (st1 b vc vn).res = .ok v ∧ (st2 b vc vn v).res = .ok g
      ∧ (st3 b vc vn pc az v).res = .error e
  | 4, [v, g, sp], e => (st1 b vc vn).res = .ok v ∧ (st2 b vc vn v).res = .ok g
      ∧ (st3 b vc vn pc az v).res = .ok sp ∧ (st4 b vc vn pc qc az v).res = .error e
  | 5, [v, g, sp, sq], e => (st1 b vc vn).res = .ok v ∧ (st2 b vc vn v).res = .ok g
      ∧ (st3 b vc vn pc az v).res = .ok sp ∧ (st4 b vc vn pc qc az v).res = .ok sq
      ∧ (st5 b vc vn pc qc az v g sp).res = .error e
  | 6, [v, g, sp, sq, tb1], e => (st1 b vc vn).res = .ok v ∧ (st2 b vc vn v).res = .ok g
      ∧ (st3 b vc vn pc az v).res = .ok sp ∧ (st4 b vc vn pc qc az v).res = .ok sq
      ∧ (st5 b vc vn pc qc az v g sp).res = .ok tb1
      ∧ (st6 b vc vn pc qc az v g sp sq).res = .error e
  | _, _, _ => False

/-- The console output the program produces when step `k` fails with
error `e` after steps `1..k-1` produced the handles `hs`: one success
line per completed step, then the single error line.  Note that the
public route table's handle (step 5) never appears — its success line
names the route table but omits the id. -/
def expectedOut : Nat → List String → String → List String
  | 1, [], e => [errLine e]
  | 2, [v], e => [vpcLine v, errLine e]
  | 3, [v, g], e => [vpcLine v, igwLine g, errLine e]
  | 4, [v, g, sp], e =>
    [vpcLine v, igwLine g, subnetLine sp "PublicSubnet", errLine e]
  | 5, [v, g, sp, sq], e =>
    [vpcLine v, igwLine g, subnetLine sp "PublicSubnet",
     subnetLine sq "PrivateSubnet", errLine e]
  | 6, [v, g, sp, sq, tb1], e =>
    [vpcLine v, igwLine g, subnetLine sp "PublicSubnet",
     subnetLine sq "PrivateSubnet",
     if g = "" then privRouteLine tb1 else pubRouteLine "PublicRouteTable",
     errLine e]
  | _, _, _ => []

/-- Substring test on character lists (used to state what the output does
or does not report). -/
def segOccurs (pat : List Char) : List Char → Bool
  | [] => pat.isEmpty
  | c :: rest => pat.isPrefixOf (c :: rest) || segOccurs pat rest

/-! ## Claim theorems about the executor: failure behaviour -/

/-- C2 (confirmed): whenever the client fails at step `k` (for `k` in
1..6), execution stops immediately: exactly `k` step-initiating remote
calls occur (so no step after `k` is ever invoked), and the run ends
with the step's error. -/
theorem c2_stops_at_first_failure (b : Behavior) (vc vn pc qc az : String)
    (k : Nat) (hs : List String) (e : String)
    (h : failsAtStepWith b vc vn pc qc az k hs e) :
    (execPlan b vc vn pc qc az).trace.countP isStepInit = k
      ∧ (execPlan b vc vn pc qc az).res = .error e := by
  unfold failsAtStepWith at h
  split at h
  · rw [exec_fail1 b vc vn pc qc az e h]
    exact ⟨st1_stepInit b vc vn, rfl⟩
  next v =>
    obtain ⟨h1, h2⟩ := h
    rw [exec_fail2 b vc vn pc qc az v e h1 h2]
    refine ⟨?_, rfl⟩
    show ((st1 b vc vn).trace ++ (st2 b vc vn v).trace).countP isStepInit = 2
    simp [List.countP_append, st1_stepInit, st2_stepInit]
  next v g =>
    obtain ⟨h1, h2, h3⟩ := h
    rw [exec_fail3 b vc vn pc qc az v g e h1 h2 h3]
    refine ⟨?_, rfl⟩
    show ((st1 b vc vn).trace ++ (st2 b vc vn v).trace
        ++ (st3 b vc vn pc az v).trace).countP isStepInit = 3
    simp [List.countP_append, st1_stepInit, st2_stepInit, st3_stepInit]
  next v g sp =>
    obtain ⟨h1, h2, h3, h4⟩ := h
    rw [exec_fail4 b vc vn pc qc az v g sp e h1 h2 h3 h4]
    refine ⟨?_, rfl⟩
    show ((st1 b vc vn).trace ++ (st2 b vc vn v).trace ++ (st3 b vc vn pc az v).trace
        ++ (st4 b vc vn pc qc az v).trace).countP isStepInit = 4
    simp [List.countP_append, st1_stepInit, st2_stepInit, st3_stepInit, st4_stepInit]
  next v g sp sq =>
    obtain ⟨h1, h2, h3, h4, h5⟩ := h
    rw [exec_fail5 b vc vn pc qc az v g sp sq e h1 h2 h3 h4 h5]
    refine ⟨?_, rfl⟩
    show ((st1 b vc vn).trace ++ (st2 b vc vn v).trace ++ (st3 b vc vn pc az v).trace
        ++ (st4 b vc vn pc qc az v).trace
        ++ (st5 b vc vn pc qc az v g sp).trace).countP isStepInit = 5
    simp [List.countP_append, st1_stepInit, st2_stepInit, st3_stepInit, st4_stepInit,
      st5_stepInit]
  next v g sp sq tb1 =>
    obtain ⟨h1, h2, h3, h4, h5, h6⟩ := h
    rw [exec_fail6 b vc vn pc qc az v g sp sq tb1 e h1 h2 h3 h4 h5 h6]
    refine ⟨?_, rfl⟩
    show ((st1 b vc vn).trace ++ (st2 b vc vn v).trace ++ (st3 b vc vn pc az v).trace
        ++ (st4 b vc vn pc qc az v).trace ++ (st5 b vc vn pc qc az v g sp).trace
        ++ (st6 b vc vn pc qc az v g sp sq).trace).countP isStepInit = 6
    simp [List.countP_append, st1_stepInit, st2_stepInit, st3_stepInit, st4_stepInit,
      st5_stepInit, st6_stepInit]
  next => exact h.elim

/-- Client that fails on every subnet creation, used to exercise a
failure at step 3. -/
def bFailSubnet : Behavior := fun _ c =>
  match c with
  | .createSubnet _ _ _ => .error "boom"
  | .createVpc _ => .ok "vpc-1"
  | .createInternetGateway => .ok "igw-1"
  | _ => .ok ""

/-- C2 witness: with a concrete client failing at step 3 after steps 1-2
produced `vpc-1` and `igw-1`, exactly 3 step-initiating calls occur and
the run reports the error. -/
theorem c2_stops_at_first_failure_witness :
    failsAtStepWith bFailSubnet "10.0.0.0/16" "demo" "10.0.1.0/24" "10.0.2.0/24"
        "us-east-1a" 3 ["vpc-1", "igw-1"] "boom"
      ∧ ((execPlan bFailSubnet "10.0.0.0/16" "demo" "10.0.1.0/24" "10.0.2.0/24"
            "us-east-1a").trace.countP isStepInit = 3
        ∧ (execPlan bFailSubnet "10.0.0.0/16" "demo" "10.0.1.0/24" "10.0.2.0/24"
            "us-east-1a").res = .error "boom") :=
  ⟨⟨rfl, rfl, rfl⟩,
   c2_stops_at_first_failure bFailSubnet "10.0.0.0/16" "demo" "10.0.1.0/24"
     "10.0.2.0/24" "us-east-1a" 3 ["vpc-1", "igw-1"] "boom" ⟨rfl, rfl, rfl⟩⟩

/-- C4 (confirmed): when a step fails, the executor performs no rollback:
the remote-call trace contains no delete, detach or disassociate call at
all, so every resource created before the failure is left in place. -/
theorem c4_no_rollback (b : Behavior) (vc vn pc qc az : String)
    (k : Nat) (hs : List String) (e : String)
    (h : failsAtStepWith b vc vn pc qc az k hs e) :
    (execPlan b vc vn pc qc az).trace.countP isTeardown = 0 := by
  unfold failsAtStepWith at h
  split at h
  · rw [exec_fail1 b vc vn pc qc az e h]
    exact st1_teardown b vc vn
  next v =>
    obtain ⟨h1, h2⟩ := h
    rw [exec_fail2 b vc vn pc qc az v e h1 h2]
    show ((st1 b vc vn).trace ++ (st2 b vc vn v).trace).countP isTeardown = 0
    simp [List.countP_append, st1_teardown, st2_teardown]
  next v g =>
    obtain ⟨h1, h2, h3⟩ := h
    rw [exec_fail3 b vc vn pc qc az v g e h1 h2 h3]
    show ((st1 b vc vn).trace ++ (st2 b vc vn v).trace
        ++ (st3 b vc vn pc az v).trace).countP isTeardown = 0
    simp [List.countP_append, st1_teardown, st2_teardown, st3_teardown]
  next v g sp =>
    obtain ⟨h1, h2, h3, h4⟩ := h
    rw [exec_fail4 b vc vn pc qc az v g sp e h1 h2 h3 h4]
    show ((st1 b vc vn).trace ++ (st2 b vc vn v).trace ++ (st3 b vc vn pc az v).trace
        ++ (st4 b vc vn pc qc az v).trace).countP isTeardown = 0
    simp [List.countP_append, st1_teardown, st2_teardown, st3_teardown, st4_teardown]
  next v g sp sq =>
    obtain ⟨h1, h2, h3, h4, h5⟩ := h
    rw [exec_fail5 b vc vn pc qc az v g sp sq e h1 h2 h3 h4 h5]
    show ((st1 b vc vn).trace ++ (st2 b vc vn v).trace ++ (st3 b vc vn pc az v).trace
        ++ (st4 b vc vn pc qc az v).trace
        ++ (st5 b vc vn pc qc az v g sp).trace).countP isTeardown = 0
    simp [List.countP_append, st1_teardown, st2_teardown, st3_teardown, st4_teardown,
      st5_teardown]
  next v g sp sq tb1 =>
    obtain ⟨h1, h2, h3, h4, h5, h6⟩ := h
    rw [exec_fail6 b vc vn pc qc az v g sp sq tb1 e h1 h2 h3 h4 h5 h6]
    show ((st1 b vc vn).trace ++ (st2 b vc vn v).trace ++ (st3 b vc vn pc az v).trace
        ++ (st4 b vc vn pc qc az v).trace ++ (st5 b vc vn pc qc az v g sp).trace
        ++ (st6 b vc vn pc qc az v g sp sq).trace).countP isTeardown = 0
    simp [List.countP_append, st1_teardown, st2_teardown, st3_teardown, st4_teardown,
      st5_teardown, st6_teardown]
  next => exact h.elim

/-- C4 witness: the concrete step-3 failure leaves a trace with zero
teardown calls. -/
theorem c4_no_rollback_witness :
    failsAtStepWith bFailSubnet "10.0.0.0/16" "demo" "10.0.1.0/24" "10.0.2.0/24"
        "us-east-1a" 3 ["vpc-1", "igw-1"] "boom"
      ∧ (execPlan bFailSubnet "10.0.0.0/16" "demo" "10.0.1.0/24" "10.0.2.0/24"
          "us-east-1a").trace.countP isTeardown = 0 :=
  ⟨⟨rfl, rfl, rfl⟩,
   c4_no_rollback bFailSubnet "10.0.0.0/16" "demo" "10.0.1.0/24" "10.0.2.0/24"
     "us-east-1a" 3 ["vpc-1", "igw-1"] "boom" ⟨rfl, rfl, rfl⟩⟩

/-- Client that succeeds on every call (returning distinct handles for
the two subnets and a single route-table id) except for the route-table
association with the private subnet (step 6), which fails. -/
def bFailAssoc : Behavior := fun _ c =>
  match c with
  | .createVpc _ => .ok "vpc-1"
  | .createInternetGateway => .ok "igw-1"
  | .createSubnet _ cidr _ => .ok (if cidr = "10.0.1.0/24" then "sub-pub" else "sub-priv")
  | .createRouteTable _ => .ok "rtb-1"
  | .associateWithSubnet _ sn =>
    if sn = "sub-priv" then .error "AssocFailed" else .ok ""
  | _ => .ok ""

/-- C6, counterexample: the claim says a failure at step 6 reports the
name of the failing step and all handles from steps 1-5, including the
public route-table handle.  With a client whose step-6 association fails,
the program's entire output is six lines; the public route-table handle
`rtb-1` (produced by step 5) appears in none of them, and no line names
the failing step (`PrivateRouteTable` appears nowhere): the error line is
the raw client message only. -/
theorem c6_counterexample :
    failsAtStepWith bFailAssoc "10.0.0.0/16" "demo" "10.0.1.0/24" "10.0.2.0/24"
        "us-east-1a" 6 ["vpc-1", "igw-1", "sub-pub", "sub-priv", "rtb-1"] "AssocFailed"
      ∧ (st5 bFailAssoc "10.0.0.0/16" "demo" "10.0.1.0/24" "10.0.2.0/24" "us-east-1a"
          "vpc-1" "igw-1" "sub-pub").res = .ok "rtb-1"
      ∧ (execPlan bFailAssoc "10.0.0.0/16" "demo" "10.0.1.0/24" "10.0.2.0/24"
          "us-east-1a").out
        = [vpcLine "vpc-1", igwLine "igw-1", subnetLine "sub-pub" "PublicSubnet",
           subnetLine "sub-priv" "PrivateSubnet", pubRouteLine "PublicRouteTable",
           errLine "AssocFailed"]
      ∧ ((execPlan bFailAssoc "10.0.0.0/16" "demo" "10.0.1.0/24" "10.0.2.0/24"
          "us-east-1a").out.all fun l => !segOccurs "rtb-1".data l.data) = true
      ∧ ((execPlan bFailAssoc "10.0.0.0/16" "demo" "10.0.1.0/24" "10.0.2.0/24"
          "us-east-1a").out.all fun l => !segOccurs "PrivateRouteTable".data l.data)
        = true :=
  ⟨⟨rfl, rfl, rfl, rfl, rfl, rfl⟩, rfl, rfl, rfl, rfl⟩

/-- C6, amended: when step `k` fails with error `e` after steps `1..k-1`
produced the handles `hs`, the program's output is one success line per
completed step in order — each containing that step's handle, except
step 5's line, which names the public route table but omits its id —
followed by a single error line containing only the underlying error
message (the failing step's name is not included); the result is the
error. -/
theorem c6_failure_report (b : Behavior) (vc vn pc qc az : String)
    (k : Nat) (hs : List String) (e : String)
    (h : failsAtStepWith b vc vn pc qc az k hs e) :
    (execPlan b vc vn pc qc az).out = expectedOut k hs e
      ∧ (execPlan b vc vn pc qc az).res = .error e := by
  unfold failsAtStepWith at h
  split at h
  · rw [exec_fail1 b vc vn pc qc az e h]
    refine ⟨?_, rfl⟩
    show (st1 b vc vn).out ++ [errLine e] = expectedOut 1 [] e
    rw [st1_err_out b vc vn e h]
    simp [expectedOut]
  next v =>
    obtain ⟨h1, h2⟩ := h
    rw [exec_fail2 b vc vn pc qc az v e h1 h2]
    refine ⟨?_, rfl⟩
    show (st1 b vc vn).out ++ (st2 b vc vn v).out ++ [errLine e] = expectedOut 2 [v] e
    rw [st1_ok_out b vc vn v h1, st2_err_out b vc vn v e h2]
    simp [expectedOut]
  next v g =>
    obtain ⟨h1, h2, h3⟩ := h
    rw [exec_fail3 b vc vn pc qc az v g e h1 h2 h3]
    refine ⟨?_, rfl⟩
    show (st1 b vc vn).out ++ (st2 b vc vn v).out ++ (st3 b vc vn pc az v).out
        ++ [errLine e] = expectedOut 3 [v, g] e
    rw [st1_ok_out b vc vn v h1, st2_ok_out b vc vn v g h2,
      st3_err_out b vc vn pc az v e h3]
    simp [expectedOut]
  next v g sp =>
    obtain ⟨h1, h2, h3, h4⟩ := h
    rw [exec_fail4 b vc vn pc qc az v g sp e h1 h2 h3 h4]
    refine ⟨?_, rfl⟩
    show (st1 b vc vn).out ++ (st2 b vc vn v).out ++ (st3 b vc vn pc az v).out
        ++ (st4 b vc vn pc qc az v).out ++ [errLine e] = expectedOut 4 [v, g, sp] e
    rw [st1_ok_out b vc vn v h1, st2_ok_out b vc vn v g h2,
      st3_ok_out b vc vn pc az v sp h3, st4_err_out b vc vn pc qc az v e h4]
    simp [expectedOut]
  next v g sp sq =>
    obtain ⟨h1, h2, h3, h4, h5⟩ := h
    rw [exec_fail5 b vc vn pc qc az v g sp sq e h1 h2 h3 h4 h5]
    refine ⟨?_, rfl⟩
    show (st1 b vc vn).out ++ (st2 b vc vn v).out ++ (st3 b vc vn pc az v).out
        ++ (st4 b vc vn pc qc az v).out ++ (st5 b vc vn pc qc az v g sp).out
        ++ [errLine e] = expectedOut 5 [v, g, sp, sq] e
    rw [st1_ok_out b vc vn v h1, st2_ok_out b vc vn v g h2,
      st3_ok_out b vc vn pc az v sp h3, st4_ok_out b vc vn pc qc az v sq h4,
      st5_err_out b vc vn pc qc az v g sp e h5]
    simp [expectedOut]
  next v g sp sq tb1 =>
    obtain ⟨h1, h2, h3, h4, h5, h6⟩ := h
    rw [exec_fail6 b vc vn pc qc az v g sp sq tb1 e h1 h2 h3 h4 h5 h6]
    refine ⟨?_, rfl⟩
    show (st1 b vc vn).out ++ (st2 b vc vn v).out ++ (st3 b vc vn pc az v).out
        ++ (st4 b vc vn pc qc az v).out ++ (st5 b vc vn pc qc az v g sp).out
        ++ (st6 b vc vn pc qc az v g sp sq).out ++ [errLine e]
      = expectedOut 6 [v, g, sp, sq, tb1] e
    rw [st1_ok_out b vc vn v h1, st2_ok_out b vc vn v g h2,
      st3_ok_out b vc vn pc az v sp h3, st4_ok_out b vc vn pc qc az v sq h4,
      st5_ok_out b vc vn pc qc az v g sp tb1 h5,
      st6_err_out b vc vn pc qc az v g sp sq e h6]
    by_cases hg : g = "" <;> simp [expectedOut, hg]
  next => exact h.elim

/-- C6 witness: the amended report shape at the concrete step-6 failure. -/
theorem c6_failure_report_witness :
    failsAtStepWith bFailAssoc "10.0.0.0/16" "demo" "10.0.1.0/24" "10.0.2.0/24"
        "us-east-1a" 6 ["vpc-1", "igw-1", "sub-pub", "sub-priv", "rtb-1"] "AssocFailed"
      ∧ ((execPlan bFailAssoc "10.0.0.0/16" "demo" "10.0.1.0/24" "10.0.2.0/24"
            "us-east-1a").out
          = expectedOut 6 ["vpc-1", "igw-1", "sub-pub", "sub-priv", "rtb-1"] "AssocFailed"
        ∧ (execPlan bFailAssoc "10.0.0.0/16" "demo" "10.0.1.0/24" "10.0.2.0/24"
            "us-east-1a").res = .error "AssocFailed") :=
  ⟨⟨rfl, rfl, rfl, rfl, rfl, rfl⟩,
   c6_failure_report bFailAssoc "10.0.0.0/16" "demo" "10.0.1.0/24" "10.0.2.0/24"
     "us-east-1a" 6 ["vpc-1", "igw-1", "sub-pub", "sub-priv", "rtb-1"] "AssocFailed"
     ⟨rfl, rfl, rfl, rfl, rfl, rfl⟩⟩

/-! ## Claim theorems about the executor: success behaviour -/

/-- Response function returning an empty string as the internet-gateway
handle and fixed ids otherwise. -/
def fEmptyIgw : List Call → Call → String := fun _ c =>
  match c with
  | .createInternetGateway => ""
  | .createVpc _ => "vpc-1"
  | .createSubnet _ _ _ => "sub-1"
  | .createRouteTable _ => "rtb-1"
  | _ => "r"

/-- C3, counterexample: the claim says that for every client on which all
calls succeed, only the public route table gets a 0.0.0.0/0 default
route.  With a client that succeeds on every call but returns the empty
string as the gateway handle, all six steps complete successfully yet no
`createRoute` call is ever issued, because `create_route_table` guards
the default route with Python truthiness of `igw_id` (line 43), and the
empty string is falsy. -/
theorem c3_counterexample :
    (execPlan (okB fEmptyIgw) "10.0.0.0/16" "demo" "10.0.1.0/24" "10.0.2.0/24"
        "us-east-1a").res = .ok ()
      ∧ (execPlan (okB fEmptyIgw) "10.0.0.0/16" "demo" "10.0.1.0/24" "10.0.2.0/24"
          "us-east-1a").trace.countP isCreateRouteCall = 0
      ∧ (execPlan (okB fEmptyIgw) "10.0.0.0/16" "demo" "10.0.1.0/24" "10.0.2.0/24"
          "us-east-1a").trace.countP isStepInit = 6 :=
  ⟨rfl, rfl, rfl⟩

/-- C3, amended: for every client on which all calls succeed and whose
gateway handle is a nonempty string, the executor makes exactly the
sixteen remote calls below, in order: the six step-initiating calls occur
in the fixed order VPC, gateway, public subnet, private subnet, public
route table, private route table; step 5's `createRoute` call receives
the gateway handle produced by step 2, and step 6 issues no `createRoute`
call, so exactly one 0.0.0.0/0 default route is created, on the public
route table.  (When the gateway handle is the empty string, step 5 skips
the route — see the counterexample.) -/
theorem c3_order_and_routing (f : List Call → Call → String)
    (vc vn pc qc az v g sp sq tb1 tb2 : String)
    (hv : f [] (.createVpc vc) = v)
    (hg : f [.createVpc vc, .waitUntilAvailable v, .createTags v "Name" vn]
        .createInternetGateway = g)
    (hgne : g ≠ "")
    (hsp : f [.createVpc vc, .waitUntilAvailable v, .createTags v "Name" vn,
          .createInternetGateway, .attachToVpc g v] (.createSubnet v pc az) = sp)
    (hsq : f [.createVpc vc, .waitUntilAvailable v, .createTags v "Name" vn,
          .createInternetGateway, .attachToVpc g v,
          .createSubnet v pc az, .createTags sp "Name" "PublicSubnet"]
        (.createSubnet v qc az) = sq)
    (htb1 : f [.createVpc vc, .waitUntilAvailable v, .createTags v "Name" vn,
          .createInternetGateway, .attachToVpc g v,
          .createSubnet v pc az, .createTags sp "Name" "PublicSubnet",
          .createSubnet v qc az, .createTags sq "Name" "PrivateSubnet"]
        (.createRouteTable v) = tb1)
    (htb2 : f [.createVpc vc, .waitUntilAvailable v, .createTags v "Name" vn,
          .createInternetGateway, .attachToVpc g v,
          .createSubnet v pc az, .createTags sp "Name" "PublicSubnet",
          .createSubnet v qc az, .createTags sq "Name" "PrivateSubnet",
          .createRouteTable v, .createTags tb1 "Name" "PublicRouteTable",
          .associateWithSubnet tb1 sp, .createRoute tb1 "0.0.0.0/0" g]
        (.createRouteTable v) = tb2) :
    (execPlan (okB f) vc vn pc qc az).trace
        = [.createVpc vc, .waitUntilAvailable v, .createTags v "Name" vn,
           .createInternetGateway, .attachToVpc g v,
           .createSubnet v pc az, .createTags sp "Name" "PublicSubnet",
           .createSubnet v qc az, .createTags sq "Name" "PrivateSubnet",
           .createRouteTable v, .createTags tb1 "Name" "PublicRouteTable",
           .associateWithSubnet tb1 sp, .createRoute tb1 "0.0.0.0/0" g,
           .createRouteTable v, .createTags tb2 "Name" "PrivateRouteTable",
           .associateWithSubnet tb2 sq]
      ∧ (execPlan (okB f) vc vn pc qc az).res = .ok ()
      ∧ (execPlan (okB f) vc vn pc qc az).trace.countP isStepInit = 6
      ∧ (execPlan (okB f) vc vn pc qc az).trace.countP isCreateRouteCall = 1 := by
  subst hv hg hsp hsq htb1 htb2
  refine ⟨?_, ?_, ?_, ?_⟩ <;>
    simp only [execPlan, st1, st2, st3, st4, st5, st6,
      hist1, hist2, hist3, hist4, hist5,
      run_create_vpc, run_create_internet_gateway, run_create_subnet,
      run_create_route_table, okB, List.cons_append, List.nil_append,
      List.append_nil, if_neg hgne] <;>
    rfl

/-- Response function with distinct handles per resource; the two route
tables are told apart by the length of the call history. -/
def fDistinct : List Call → Call → String := fun t c =>
  match c with
  | .createVpc _ => "vpc-1"
  | .createInternetGateway => "igw-1"
  | .createSubnet _ cidr _ => if cidr = "10.0.1.0/24" then "sub-pub" else "sub-priv"
  | .createRouteTable _ => if t.length = 9 then "rtb-pub" else "rtb-priv"
  | _ => "r"

/-- C3 witness: the amended trace shape at a concrete all-success client
with a nonempty gateway handle. -/
theorem c3_order_and_routing_witness :
    (execPlan (okB fDistinct) "10.0.0.0/16" "demo" "10.0.1.0/24" "10.0.2.0/24"
        "us-east-1a").trace
        = [.createVpc "10.0.0.0/16", .waitUntilAvailable "vpc-1",
           .createTags "vpc-1" "Name" "demo",
           .createInternetGateway, .attachToVpc "igw-1" "vpc-1",
           .createSubnet "vpc-1" "10.0.1.0/24" "us-east-1a",
           .createTags "sub-pub" "Name" "PublicSubnet",
           .createSubnet "vpc-1" "10.0.2.0/24" "us-east-1a",
           .createTags "sub-priv" "Name" "PrivateSubnet",
           .createRouteTable "vpc-1", .createTags "rtb-pub" "Name" "PublicRouteTable",
           .associateWithSubnet "rtb-pub" "sub-pub",
           .createRoute "rtb-pub" "0.0.0.0/0" "igw-1",
           .createRouteTable "vpc-1", .createTags "rtb-priv" "Name" "PrivateRouteTable",
           .associateWithSubnet "rtb-priv" "sub-priv"]
      ∧ (execPlan (okB fDistinct) "10.0.0.0/16" "demo" "10.0.1.0/24" "10.0.2.0/24"
          "us-east-1a").res = .ok ()
      ∧ (execPlan (okB fDistinct) "10.0.0.0/16" "demo" "10.0.1.0/24" "10.0.2.0/24"
          "us-east-1a").trace.countP isStepInit = 6
      ∧ (execPlan (okB fDistinct) "10.0.0.0/16" "demo" "10.0.1.0/24" "10.0.2.0/24"
          "us-east-1a").trace.countP isCreateRouteCall = 1 :=
  c3_order_and_routing fDistinct "10.0.0.0/16" "demo" "10.0.1.0/24" "10.0.2.0/24"
    "us-east-1a" "vpc-1" "igw-1" "sub-pub" "sub-priv" "rtb-pub" "rtb-priv"
    rfl rfl (by decide) rfl rfl rfl rfl

/-- Any execution whose first step succeeded has the step-1 calls as a
prefix of its trace. -/
theorem exec_trace_decomp (b : Behavior) (vc vn pc qc az v : String)
    (h1 : (st1 b vc vn).res = .ok v) :
    ∃ rest, (execPlan b vc vn pc qc az).trace = (st1 b vc vn).trace ++ rest := by
  cases h2 : (st2 b vc vn v).res with
  | error e =>
    exact ⟨(st2 b vc vn v).trace, by rw [exec_fail2 b vc vn pc qc az v e h1 h2]⟩
  | ok g =>
    cases h3 : (st3 b vc vn pc az v).res with
    | error e =>
      refine ⟨(st2 b vc vn v).trace ++ (st3 b vc vn pc az v).trace, ?_⟩
      rw [exec_fail3 b vc vn pc qc az v g e h1 h2 h3]
      simp [List.append_assoc]
    | ok sp =>
      cases h4 : (st4 b vc vn pc qc az v).res with
      | error e =>
        refine ⟨(st2 b vc vn v).trace ++ (st3 b vc vn pc az v).trace
          ++ (st4 b vc vn pc qc az v).trace, ?_⟩
        rw [exec_fail4 b vc vn pc qc az v g sp e h1 h2 h3 h4]
        simp [List.append_assoc]
      | ok sq =>
        cases h5 : (st5 b vc vn pc qc az v g sp).res with
        | error e =>
          refine ⟨(st2 b vc vn v).trace ++ (st3 b vc vn pc az v).trace
            ++ (st4 b vc vn pc qc az v).trace ++ (st5 b vc vn pc qc az v g sp).trace, ?_⟩
          rw [exec_fail5 b vc vn pc qc az v g sp sq e h1 h2 h3 h4 h5]
          simp [List.append_assoc]
        | ok tb1 =>
          cases h6 : (st6 b vc vn pc qc az v g sp sq).res with
          | error e =>
            refine ⟨(st2 b vc vn v).trace ++ (st3 b vc vn pc az v).trace
              ++ (st4 b vc vn pc qc az v).trace ++ (st5 b vc vn pc qc az v g sp).trace
              ++ (st6 b vc vn pc qc az v g sp sq).trace, ?_⟩
            rw [exec_fail6 b vc vn pc qc az v g sp sq tb1 e h1 h2 h3 h4 h5 h6]
            simp [List.append_assoc]
          | ok tb2 =>
            refine ⟨(st2 b vc vn v).trace ++ (st3 b vc vn pc az v).trace
              ++ (st4 b vc vn pc qc az v).trace ++ (st5 b vc vn pc qc az v g sp).trace
              ++ (st6 b vc vn pc qc az v g sp sq).trace, ?_⟩
            rw [exec_ok_all b vc vn pc qc az v g sp sq tb1 tb2 h1 h2 h3 h4 h5 h6]
            simp [List.append_assoc]

/-- C7 (confirmed): in every execution, (a) if any subnet-creation call
occurs in the trace, then the first two remote calls were the VPC
creation and its availability wait, and the wait returned successfully —
so the wait observably completes before any subnet is created; and
(b) if the availability wait raises, the execution fails at the VPC step:
the trace ends at the wait (it is called exactly once, never retried) and
the wait's error is the reported error. -/
theorem c7_wait_before_subnets (b : Behavior) (vc vn pc qc az : String) :
    ((execPlan b vc vn pc qc az).trace.countP isCreateSubnetCall ≠ 0 →
      ∃ v r, (execPlan b vc vn pc qc az).trace.get? 0 = some (.createVpc vc)
        ∧ (execPlan b vc vn pc qc az).trace.get? 1 = some (.waitUntilAvailable v)
        ∧ b [.createVpc vc] (.waitUntilAvailable v) = .ok r)
    ∧ (∀ v e, b [] (.createVpc vc) = .ok v →
        b [.createVpc vc] (.waitUntilAvailable v) = .error e →
        (execPlan b vc vn pc qc az).trace = [.createVpc vc, .waitUntilAvailable v]
          ∧ (execPlan b vc vn pc qc az).out = [errLine e]
          ∧ (execPlan b vc vn pc qc az).res = .error e) := by
  constructor
  · intro hcnt
    cases h1 : (st1 b vc vn).res with
    | error e =>
      exfalso
      rw [exec_fail1 b vc vn pc qc az e h1] at hcnt
      exact hcnt (st1_subnetfree b vc vn)
    | ok v =>
      obtain ⟨htr, hb1, ⟨r, hb2⟩⟩ := st1_ok_inv b vc vn v h1
      obtain ⟨rest, hdecomp⟩ := exec_trace_decomp b vc vn pc qc az v h1
      refine ⟨v, r, ?_, ?_, hb2⟩
      · rw [hdecomp, htr]
        rfl
      · rw [hdecomp, htr]
        rfl
  · intro v e hb1 hb2
    have hst : st1 b vc vn = ⟨[.createVpc vc, .waitUntilAvailable v], [], .error e⟩ := by
      unfold st1 run_create_vpc
      simp only [List.nil_append, hb1, hb2]
    have h1 : (st1 b vc vn).res = .error e := by rw [hst]
    rw [exec_fail1 b vc vn pc qc az e h1, hst]
    exact ⟨rfl, rfl, rfl⟩

/-- Client whose availability wait for the VPC fails. -/
def bWaitFails : Behavior := fun _ c =>
  match c with
  | .waitUntilAvailable _ => .error "timeout"
  | .createVpc _ => .ok "vpc-1"
  | _ => .ok ""

/-- C7 witness: (a) at an all-success client the trace contains subnet
creations and starts with the VPC creation followed by a successful wait;
(b) at a client whose wait times out, execution stops at the wait with
its error. -/
theorem c7_wait_before_subnets_witness :
    ((execPlan (okB fDistinct) "10.0.0.0/16" "demo" "10.0.1.0/24" "10.0.2.0/24"
          "us-east-1a").trace.countP isCreateSubnetCall ≠ 0
      ∧ ∃ v r, (execPlan (okB fDistinct) "10.0.0.0/16" "demo" "10.0.1.0/24"
            "10.0.2.0/24" "us-east-1a").trace.get? 0 = some (.createVpc "10.0.0.0/16")
          ∧ (execPlan (okB fDistinct) "10.0.0.0/16" "demo" "10.0.1.0/24" "10.0.2.0/24"
              "us-east-1a").trace.get? 1 = some (.waitUntilAvailable v)
          ∧ okB fDistinct [.createVpc "10.0.0.0/16"] (.waitUntilAvailable v) = .ok r)
    ∧ ((execPlan bWaitFails "10.0.0.0/16" "demo" "10.0.1.0/24" "10.0.2.0/24"
          "us-east-1a").trace
            = [.createVpc "10.0.0.0/16", .waitUntilAvailable "vpc-1"]
        ∧ (execPlan bWaitFails "10.0.0.0/16" "demo" "10.0.1.0/24" "10.0.2.0/24"
            "us-east-1a").out = [errLine "timeout"]
        ∧ (execPlan bWaitFails "10.0.0.0/16" "demo" "10.0.1.0/24" "10.0.2.0/24"
            "us-east-1a").res = .error "timeout") :=
  ⟨⟨by decide,
    (c7_wait_before_subnets (okB fDistinct) "10.0.0.0/16" "demo" "10.0.1.0/24"
      "10.0.2.0/24" "us-east-1a").1 (by decide)⟩,
   (c7_wait_before_subnets bWaitFails "10.0.0.0/16" "demo" "10.0.1.0/24" "10.0.2.0/24"
     "us-east-1a").2 "vpc-1" "timeout" rfl rfl⟩

/-! ## Claim theorems about argument validation in `main` -/

/-- C5 (confirmed): if any of the program's CIDR inputs (VPC, public
subnet, private subnet — the three options argparse validates with
`validate_cidr`) is invalid, `main` fails during argument parsing: the
boto3 EC2 client is never constructed, no remote call is made, and the
process exits with an error.  (The spec speaks of "four" CIDR inputs;
the program has exactly three.) -/
theorem c5_invalid_input_fails_before_client (b : Behavior) (vc vn pc qc az : String)
    (h : (∃ e, validate_cidr vc = .error e) ∨ (∃ e, validate_cidr pc = .error e)
      ∨ (∃ e, validate_cidr qc = .error e)) :
    (main_run b vc vn pc qc az).clientConstructed = false
      ∧ (main_run b vc vn pc qc az).trace = []
      ∧ ∃ e, (main_run b vc vn pc qc az).res = .error e := by
  unfold main_run
  rcases h with ⟨e, he⟩ | ⟨e, he⟩ | ⟨e, he⟩
  · simp [he]
  · cases h1 : validate_cidr vc with
    | error e1 => simp [h1]
    | ok vc1 => simp [h1, he]
  · cases h1 : validate_cidr vc with
    | error e1 => simp [h1]
    | ok vc1 =>
      cases h2 : validate_cidr pc with
      | error e2 => simp [h1, h2]
      | ok pc1 => simp [h1, h2, he]

/-- C5 witness: the spec's own scenario — public subnet CIDR
`"999.0.0.0/24"` — aborts before the client exists and before any call. -/
theorem c5_invalid_input_fails_before_client_witness :
    (main_run (okB fDistinct) "10.0.0.0/16" "demo" "999.0.0.0/24" "10.0.2.0/24"
        "us-east-1a").clientConstructed = false
      ∧ (main_run (okB fDistinct) "10.0.0.0/16" "demo" "999.0.0.0/24" "10.0.2.0/24"
          "us-east-1a").trace = []
      ∧ ∃ e, (main_run (okB fDistinct) "10.0.0.0/16" "demo" "999.0.0.0/24"
          "10.0.2.0/24" "us-east-1a").res = .error e :=
  c5_invalid_input_fails_before_client (okB fDistinct) "10.0.0.0/16" "demo"
    "999.0.0.0/24" "10.0.2.0/24" "us-east-1a"
    (Or.inr (Or.inl ⟨"Invalid CIDR: 999.0.0.0/24", rfl⟩))

/-- Client on which every call succeeds with a fixed handle. -/
def bAllOk : Behavior := fun _ _ => .ok "h"

/-- C8, counterexample: the claim says an empty `vpcName` or
`availabilityZone` makes plan construction fail with the invalid-input
error before any provisioning step.  In the program, `--vpc-name` and
`--availability-zone` have no validator (argparse only requires the
options to be present), so with both empty the client is constructed,
all six steps run, and the run succeeds. -/
theorem c8_counterexample :
    (main_run bAllOk "10.0.0.0/16" "" "10.0.1.0/24" "10.0.2.0/24" "").clientConstructed
        = true
      ∧ (main_run bAllOk "10.0.0.0/16" "" "10.0.1.0/24" "10.0.2.0/24" "").res = .ok ()
      ∧ (main_run bAllOk "10.0.0.0/16" "" "10.0.1.0/24" "10.0.2.0/24"
          "").trace.countP isStepInit = 6 :=
  ⟨rfl, rfl, rfl⟩

/-- C8, amended: argument parsing imposes no non-emptiness requirement on
`vpcName` or `availabilityZone`: whenever the three CIDR options
validate, `main` constructs the client and runs the provisioning steps,
whatever the name and zone strings are (including empty), passing them
through unchecked. -/
theorem c8_no_nonempty_check (b : Behavior) (vc vn pc qc az vc1 pc1 qc1 : String)
    (h1 : validate_cidr vc = .ok vc1) (h2 : validate_cidr pc = .ok pc1)
    (h3 : validate_cidr qc = .ok qc1) :
    (main_run b vc vn pc qc az).clientConstructed = true
      ∧ (main_run b vc vn pc qc az).trace = (execPlan b vc1 vn pc1 qc1 az).trace
      ∧ (main_run b vc vn pc qc az).res = (execPlan b vc1 vn pc1 qc1 az).res := by
  unfold main_run
  simp [h1, h2, h3]

/-- C8 witness: with empty name and zone and valid CIDRs, the client is
constructed and execution proceeds. -/
theorem c8_no_nonempty_check_witness :
    (main_run bAllOk "10.0.0.0/16" "" "10.0.1.0/24" "10.0.2.0/24" "").clientConstructed
        = true
      ∧ (main_run bAllOk "10.0.0.0/16" "" "10.0.1.0/24" "10.0.2.0/24" "").trace
          = (execPlan bAllOk "10.0.0.0/16" "" "10.0.1.0/24" "10.0.2.0/24" "").trace
      ∧ (main_run bAllOk "10.0.0.0/16" "" "10.0.1.0/24" "10.0.2.0/24" "").res
          = (execPlan bAllOk "10.0.0.0/16" "" "10.0.1.0/24" "10.0.2.0/24" "").res :=
  c8_no_nonempty_check bAllOk "10.0.0.0/16" "" "10.0.1.0/24" "10.0.2.0/24" ""
    "10.0.0.0/16" "10.0.1.0/24" "10.0.2.0/24" rfl rfl rfl

example : validate_cidr "10.0.0.0/16" = .ok "10.0.0.0/16" := rfl
example : validate_cidr "10.0.0.0" = .ok "10.0.0.0" := rfl
example : validate_cidr "10.0.1.1/24" = .error "Invalid CIDR: 10.0.1.1/24" := rfl
example : validate_cidr "999.0.0.0/24" = .error "Invalid CIDR: 999.0.0.0/24" := rfl
example : validate_cidr "10.0.0.0/255.255.0.0" = .ok "10.0.0.0/255.255.0.0" := rfl
example : validate_cidr "10.0.0.0/0.0.255.255" = .ok "10.0.0.0/0.0.255.255" := rfl
example : validate_cidr "10.0.0.0/33" = .error "Invalid CIDR: 10.0.0.0/33" := rfl
example : validate_cidr "10.0.0.0/8/8" = .error "Invalid CIDR: 10.0.0.0/8/8" := rfl
example : validate_cidr "01.0.0.0/8" = .error "Invalid CIDR: 01.0.0.0/8" := rfl
example : validate_cidr "10.0.0.0/007" = .ok "10.0.0.0/007" := rfl
example : validate_cidr "10.0.0.1/007" = .error "Invalid CIDR: 10.0.0.1/007" := rfl
example : validate_cidr "" = .error "Invalid CIDR: " := rfl
example : validate_cidr "10.0.0.0/255.0.255.0" = .error "Invalid CIDR: 10.0.0.0/255.0.255.0" := rfl
